import Mathlib

/-!
JetStream control-plane data model: a shallow embedding of the repository's
`jetstream_types.rs` — the configuration, status and envelope records together
with their serde-JSON wire codec — and the theorems that settle the spec's
claims about them.

Modelling conventions:
* Rust machine integers (`i64`, `isize`, `i32`) are modelled as `Int`, and the
  unsigned ones (`u64`, `usize`) as `Nat`; no arithmetic is performed on them
  by the code under study, so overflow never matters.
* serde_json documents are modelled by the `Json` inductive below; a struct
  serializes to `Json.obj` with one entry per field, in declaration order,
  exactly as the derived `Serialize` impl emits them.  A `None` option field
  is emitted as an explicit `Json.null` (the source derives `Serialize`
  without any `skip_serializing_if` attribute).
* the derived `Deserialize` impl walks the entries of the incoming map in
  document order, decoding each recognized value as it is met (so a malformed
  value is reported before any missing field), skips unknown keys, and only
  afterwards checks — in field declaration order — that every field without a
  default is present.  We model this as `checkEntries` (the document-order
  value pass) followed by per-field extraction.
-/

namespace Nats

/-- Wire documents: the JSON value model produced and consumed by the serde
codec of `jetstream_types.rs`. -/
inductive Json where
  | null : Json
  | bool : Bool → Json
  | num : Int → Json
  | str : String → Json
  | arr : List Json → Json
  | obj : List (String × Json) → Json

/-- Decode failures, following the spec's error taxonomy (§7). -/
inductive DecodeError where
  | unknownVariant (enumName tag : String)
  | invalidType (expected : String)
  | missingField (name : String)
  | timeParse
  deriving DecidableEq

/-- True exactly on the `null` document. -/
def Json.isNull : Json → Bool
  | .null => true
  | _ => false

/-- The field list of an object document (empty for non-objects). -/
def Json.objFields : Json → List (String × Json)
  | .obj o => o
  | _ => []

/-! Basic facts about `Except` used to invert the decoder's `do`-chains. -/

theorem except_bind_ok {ε α β : Type} {x : Except ε α} {f : α → Except ε β} {b : β}
    (h : x >>= f = .ok b) : ∃ a, x = .ok a ∧ f a = .ok b := by
  cases x with
  | ok a => exact ⟨a, rfl, h⟩
  | error e => exact Except.noConfusion h

/-! ## Primitive field codecs -/

/-- Encoding of Rust `String` fields. -/
def encStr (s : String) : Json := .str s

/-- Decoding of Rust `String` fields. -/
def decStr : Json → Except DecodeError String
  | .str s => .ok s
  | _ => .error (.invalidType "a string")

/-- Encoding of signed integer fields (`i64` / `isize` / `i32`). -/
def encInt (n : Int) : Json := .num n

/-- Decoding of signed integer fields. -/
def decInt : Json → Except DecodeError Int
  | .num n => .ok n
  | _ => .error (.invalidType "an integer")

/-- Encoding of unsigned integer fields (`u64` / `usize`). -/
def encNat (n : Nat) : Json := .num (n : Int)

/-- Decoding of unsigned integer fields: serde rejects negative numbers here. -/
def decNat : Json → Except DecodeError Nat
  | .num n => if 0 ≤ n then .ok n.toNat else .error (.invalidType "an unsigned integer")
  | _ => .error (.invalidType "an unsigned integer")

/-- Encoding of `bool` fields. -/
def encBool (b : Bool) : Json := .bool b

/-- Decoding of `bool` fields. -/
def decBool : Json → Except DecodeError Bool
  | .bool b => .ok b
  | _ => .error (.invalidType "a boolean")

theorem decStr_encStr (s : String) : decStr (encStr s) = .ok s := rfl

theorem decInt_encInt (n : Int) : decInt (encInt n) = .ok n := rfl

theorem decNat_encNat (n : Nat) : decNat (encNat n) = .ok n := by
  simp [decNat, encNat]

theorem decBool_encBool (b : Bool) : decBool (encBool b) = .ok b := rfl

/-! ## The timestamp type

The source wraps `chrono::DateTime<Utc>`; its serde impl renders the instant
as an RFC 3339 string carrying full nanosecond precision and parses it back
exactly.  We model the instant by its (signed) nanosecond count since the Unix
epoch and the injective RFC 3339 rendering by the decimal rendering of that
count, with its inverse parser. -/

/-- The character for a decimal digit. -/
def charOfDigit (d : Nat) : Char := Char.ofNat (48 + d)

/-- The numeric value of a decimal digit character. -/
def digitVal (c : Char) : Nat := c.toNat - 48

theorem charOfDigit_spec {d : Nat} (h : d < 10) :
    (charOfDigit d).isDigit = true ∧ digitVal (charOfDigit d) = d := by
  interval_cases d <;> exact ⟨by decide, by decide⟩

/-- Big-endian decimal rendering of a natural number. -/
def renderNat (m : Nat) : List Char :=
  if m = 0 then ['0'] else ((Nat.digits 10 m).map charOfDigit).reverse

/-- Parse a non-empty all-digit string back to a natural number. -/
def parseDigits (cs : List Char) : Option Nat :=
  if cs ≠ [] ∧ cs.all Char.isDigit then
    some (Nat.ofDigits 10 (cs.reverse.map digitVal))
  else none

theorem renderNat_ne_nil (m : Nat) : renderNat m ≠ [] := by
  unfold renderNat
  split
  · simp
  · simp [Nat.digits_ne_nil_iff_ne_zero, *]

theorem renderNat_digits (m : Nat) : ∀ c ∈ renderNat m, c.isDigit = true := by
  intro c hc
  unfold renderNat at hc
  split at hc
  · simp at hc
    simp [hc]
  · simp at hc
    obtain ⟨d, hd, rfl⟩ := hc
    exact (charOfDigit_spec (Nat.digits_lt_base (by norm_num) hd)).1

theorem parseDigits_renderNat (m : Nat) : parseDigits (renderNat m) = some m := by
  unfold parseDigits
  rw [if_pos ⟨renderNat_ne_nil m, List.all_eq_true.mpr fun c hc => renderNat_digits m c hc⟩]
  unfold renderNat
  split
  · simp_all [digitVal, Nat.ofDigits]
  · rw [List.reverse_reverse, List.map_map]
    have : ∀ d ∈ Nat.digits 10 m, (digitVal ∘ charOfDigit) d = id d := by
      intro d hd
      exact (charOfDigit_spec (Nat.digits_lt_base (by norm_num) hd)).2
    rw [List.map_congr_left this, List.map_id, Nat.ofDigits_digits]

/-- Big-endian decimal rendering of an integer, with a sign for negatives. -/
def renderInt (n : Int) : List Char :=
  if n < 0 then '-' :: renderNat n.natAbs else renderNat n.natAbs

/-- Parse an optionally-signed decimal string back to an integer. -/
def parseIntStr : List Char → Option Int
  | [] => none
  | c :: rest =>
      if c = '-' then (parseDigits rest).map fun m => -(m : Int)
      else (parseDigits (c :: rest)).map fun m => (m : Int)

theorem parseIntStr_renderInt (n : Int) : parseIntStr (renderInt n) = some n := by
  unfold renderInt
  split
  · rename_i hneg
    simp [parseIntStr, parseDigits_renderNat, abs_of_neg hneg]
  · rcases h : renderNat n.natAbs with _ | ⟨c, rest⟩
    · exact absurd h (renderNat_ne_nil _)
    · have hc : c.isDigit = true := renderNat_digits n.natAbs c (h ▸ List.mem_cons_self c rest)
      have hne : c ≠ '-' := by
        intro heq
        rw [heq] at hc
        exact absurd hc (by decide)
      rename_i hpos
      simp only [parseIntStr, if_neg hne, ← h, parseDigits_renderNat]
      simp [abs_of_nonneg (by omega : (0 : Int) ≤ n)]

/-- The repository's UTC time wrapper (`DateTime(ChronoDateTime<Utc>)`),
modelled by the signed nanosecond count since the Unix epoch. -/
structure DateTime where
  nanos : Int
  deriving DecidableEq

/-- The Unix epoch instant 1970-01-01T00:00:00Z, i.e. zero nanoseconds. -/
def DateTime.epoch : DateTime := ⟨0⟩

/-- Translation of `impl Default for DateTime { UNIX_EPOCH.into() }`. -/
def DateTime.default : DateTime := DateTime.epoch

/-- The wire string of a timestamp (model of the RFC 3339 rendering). -/
def DateTime.toWire (t : DateTime) : String := String.mk (renderInt t.nanos)

/-- chrono serializes the timestamp as a string. -/
def DateTime.encode (t : DateTime) : Json := .str t.toWire

/-- chrono parses the timestamp back from its string rendering. -/
def DateTime.decode : Json → Except DecodeError DateTime
  | .str s =>
      match parseIntStr s.data with
      | some n => .ok ⟨n⟩
      | none => .error .timeParse
  | _ => .error (.invalidType "DateTime")

theorem dateTime_decode_encode (t : DateTime) : DateTime.decode (DateTime.encode t) = .ok t := by
  simp [DateTime.decode, DateTime.encode, DateTime.toWire, parseIntStr_renderInt]

/-! ## Codec combinators

These model the pieces of the derived serde impls: how an `Option<T>` field is
written and read, the document-order pass over the entries of an incoming map,
and per-field extraction with the missing-field check. -/

/-- The derived `Serialize` writes a `None` option field as `null` (the source
carries no `skip_serializing_if` attribute). -/
def encOpt {α : Type} (enc : α → Json) : Option α → Json
  | none => .null
  | some a => enc a

/-- An `Option<T>` value decodes `null` to `None` and anything else via `T`. -/
def decOpt {α : Type} (dec : Json → Except DecodeError α) (j : Json) :
    Except DecodeError (Option α) :=
  if j.isNull then .ok none else Except.map some (dec j)

/-- Run a field decoder for its error only (the document-order value pass). -/
def chk {α : Type} (dec : Json → Except DecodeError α) (j : Json) : Except DecodeError Unit :=
  Except.map (fun _ => ()) (dec j)

/-- Walk the entries of an incoming map in document order: a recognized key has
its value decoded on the spot (errors surface immediately), an unknown key is
skipped, exactly as the derived `Deserialize` visitor behaves. -/
def checkEntries (specs : List (String × (Json → Except DecodeError Unit))) :
    List (String × Json) → Except DecodeError Unit
  | [] => .ok ()
  | (k, v) :: rest =>
      match specs.lookup k with
      | none => checkEntries specs rest
      | some f =>
          match f v with
          | .ok _ => checkEntries specs rest
          | .error e => .error e

/-- Extraction of an `Option<T>` field: an absent key decodes to `None`. -/
def optField {α : Type} (o : List (String × Json)) (k : String)
    (dec : Json → Except DecodeError α) : Except DecodeError (Option α) :=
  match o.lookup k with
  | none => .ok none
  | some j => decOpt dec j

/-- Extraction of a field with neither `Option` type nor `serde(default)`:
an absent key is a missing-field error. -/
def reqField {α : Type} (o : List (String × Json)) (k : String)
    (dec : Json → Except DecodeError α) : Except DecodeError α :=
  match o.lookup k with
  | none => .error (.missingField k)
  | some j => dec j

/-- Extraction of a `#[serde(default)]` field: an absent key yields the
default value. -/
def defField {α : Type} (o : List (String × Json)) (k : String)
    (dec : Json → Except DecodeError α) (d : α) : Except DecodeError α :=
  match o.lookup k with
  | none => .ok d
  | some j => dec j

theorem decOpt_encOpt {α : Type} (dec : Json → Except DecodeError α) (enc : α → Json)
    (h : ∀ a, dec (enc a) = .ok a) (hn : ∀ a, (enc a).isNull = false) (o : Option α) :
    decOpt dec (encOpt enc o) = .ok o := by
  cases o with
  | none => rfl
  | some a => simp [decOpt, encOpt, hn a, h a, Except.map]

theorem decOpt_encOpt_str (o : Option String) : decOpt decStr (encOpt encStr o) = .ok o :=
  decOpt_encOpt decStr encStr (fun _ => rfl) (fun _ => rfl) o

theorem decOpt_encOpt_int (o : Option Int) : decOpt decInt (encOpt encInt o) = .ok o :=
  decOpt_encOpt decInt encInt (fun _ => rfl) (fun _ => rfl) o

theorem decOpt_encOpt_nat (o : Option Nat) : decOpt decNat (encOpt encNat o) = .ok o :=
  decOpt_encOpt decNat encNat decNat_encNat (fun _ => rfl) o

theorem decOpt_encOpt_bool (o : Option Bool) : decOpt decBool (encOpt encBool o) = .ok o :=
  decOpt_encOpt decBool encBool (fun _ => rfl) (fun _ => rfl) o

theorem decOpt_encOpt_time (o : Option DateTime) :
    decOpt DateTime.decode (encOpt DateTime.encode o) = .ok o :=
  decOpt_encOpt DateTime.decode DateTime.encode dateTime_decode_encode (fun _ => rfl) o

/-! Subject lists (`Option<Vec<String>>` in `StreamConfig`). -/

/-- Encoding of a `Vec<String>` value. -/
def encStrList (xs : List String) : Json := .arr (xs.map encStr)

/-- Element-wise decoding of a JSON array of strings. -/
def decStrElems : List Json → Except DecodeError (List String)
  | [] => .ok []
  | j :: js => do
      let s ← decStr j
      let rest ← decStrElems js
      pure (s :: rest)

/-- Decoding of a `Vec<String>` value. -/
def decStrList : Json → Except DecodeError (List String)
  | .arr js => decStrElems js
  | _ => .error (.invalidType "an array of strings")

theorem decStrList_encStrList (xs : List String) : decStrList (encStrList xs) = .ok xs := by
  induction xs with
  | nil => rfl
  | cons x xs ih =>
      simp only [decStrList, encStrList, List.map_cons] at ih ⊢
      simp [decStrElems, decStr, encStr, ih]
      rfl

theorem decOpt_encOpt_strList (o : Option (List String)) :
    decOpt decStrList (encOpt encStrList o) = .ok o :=
  decOpt_encOpt decStrList encStrList decStrList_encStrList (fun _ => rfl) o

/-! ## Policy enumerations

Translations of the six `repr(u8)` enums of `jetstream_types.rs` with their
serde wire tags (the `serde(rename = ...)` attributes) and `Default` impls. -/

/-- DeliverPolicy determines how the consumer selects the first message. -/
inductive DeliverPolicy where
  | DeliverAllPolicy
  | DeliverLastPolicy
  | DeliverNewPolicy
  | DeliverByStartSequencePolicy
  | DeliverByStartTimePolicy
  deriving DecidableEq

/-- Translation of `impl Default for DeliverPolicy`. -/
def DeliverPolicy.default : DeliverPolicy := .DeliverAllPolicy

/-- Wire tags from the `serde(rename)` attributes on `DeliverPolicy`. -/
def DeliverPolicy.encode : DeliverPolicy → Json
  | .DeliverAllPolicy => .str "all"
  | .DeliverLastPolicy => .str "last"
  | .DeliverNewPolicy => .str "new"
  | .DeliverByStartSequencePolicy => .str "by_start_sequence"
  | .DeliverByStartTimePolicy => .str "by_start_time"

/-- Tag-string decoding of `DeliverPolicy`; any other tag is an
unknown-variant error. -/
def DeliverPolicy.decode : Json → Except DecodeError DeliverPolicy
  | .str s =>
      if s = "all" then .ok .DeliverAllPolicy
      else if s = "last" then .ok .DeliverLastPolicy
      else if s = "new" then .ok .DeliverNewPolicy
      else if s = "by_start_sequence" then .ok .DeliverByStartSequencePolicy
      else if s = "by_start_time" then .ok .DeliverByStartTimePolicy
      else .error (.unknownVariant "DeliverPolicy" s)
  | _ => .error (.invalidType "DeliverPolicy")

theorem deliverPolicy_decode_encode (p : DeliverPolicy) :
    DeliverPolicy.decode (DeliverPolicy.encode p) = .ok p := by
  cases p <;> rfl

/-- AckPolicy: the three renamed variants plus the bare `AckPolicyNotSet`
variant (discriminant 99) that carries no `serde(rename)` attribute. -/
inductive AckPolicy where
  | AckNone
  | AckAll
  | AckExplicit
  | AckPolicyNotSet
  deriving DecidableEq

/-- The `repr(u8)` discriminants of `AckPolicy`. -/
def AckPolicy.discriminant : AckPolicy → Nat
  | .AckNone => 0
  | .AckAll => 1
  | .AckExplicit => 2
  | .AckPolicyNotSet => 99

/-- Translation of `impl Default for AckPolicy`. -/
def AckPolicy.default : AckPolicy := .AckExplicit

/-- Wire tags of `AckPolicy`; `AckPolicyNotSet` has no rename attribute, so
serde uses the variant's own name as its tag. -/
def AckPolicy.encode : AckPolicy → Json
  | .AckNone => .str "none"
  | .AckAll => .str "all"
  | .AckExplicit => .str "explicit"
  | .AckPolicyNotSet => .str "AckPolicyNotSet"

/-- Tag-string decoding of `AckPolicy`. -/
def AckPolicy.decode : Json → Except DecodeError AckPolicy
  | .str s =>
      if s = "none" then .ok .AckNone
      else if s = "all" then .ok .AckAll
      else if s = "explicit" then .ok .AckExplicit
      else if s = "AckPolicyNotSet" then .ok .AckPolicyNotSet
      else .error (.unknownVariant "AckPolicy" s)
  | _ => .error (.invalidType "AckPolicy")

theorem ackPolicy_decode_encode (p : AckPolicy) :
    AckPolicy.decode (AckPolicy.encode p) = .ok p := by
  cases p <;> rfl

/-- ReplayPolicy for consumers. -/
inductive ReplayPolicy where
  | ReplayInstant
  | ReplayOriginal
  deriving DecidableEq

/-- Translation of `impl Default for ReplayPolicy`. -/
def ReplayPolicy.default : ReplayPolicy := .ReplayInstant

/-- Wire tags of `ReplayPolicy`. -/
def ReplayPolicy.encode : ReplayPolicy → Json
  | .ReplayInstant => .str "instant"
  | .ReplayOriginal => .str "original"

/-- Tag-string decoding of `ReplayPolicy`. -/
def ReplayPolicy.decode : Json → Except DecodeError ReplayPolicy
  | .str s =>
      if s = "instant" then .ok .ReplayInstant
      else if s = "original" then .ok .ReplayOriginal
      else .error (.unknownVariant "ReplayPolicy" s)
  | _ => .error (.invalidType "ReplayPolicy")

theorem replayPolicy_decode_encode (p : ReplayPolicy) :
    ReplayPolicy.decode (ReplayPolicy.encode p) = .ok p := by
  cases p <;> rfl

/-- RetentionPolicy determines how messages in a set are retained. -/
inductive RetentionPolicy where
  | LimitsPolicy
  | InterestPolicy
  | WorkQueuePolicy
  deriving DecidableEq

/-- Translation of `impl Default for RetentionPolicy`. -/
def RetentionPolicy.default : RetentionPolicy := .LimitsPolicy

/-- Wire tags of `RetentionPolicy`. -/
def RetentionPolicy.encode : RetentionPolicy → Json
  | .LimitsPolicy => .str "limits"
  | .InterestPolicy => .str "interest"
  | .WorkQueuePolicy => .str "workqueue"

/-- Tag-string decoding of `RetentionPolicy`. -/
def RetentionPolicy.decode : Json → Except DecodeError RetentionPolicy
  | .str s =>
      if s = "limits" then .ok .LimitsPolicy
      else if s = "interest" then .ok .InterestPolicy
      else if s = "workqueue" then .ok .WorkQueuePolicy
      else .error (.unknownVariant "RetentionPolicy" s)
  | _ => .error (.invalidType "RetentionPolicy")

theorem retentionPolicy_decode_encode (p : RetentionPolicy) :
    RetentionPolicy.decode (RetentionPolicy.encode p) = .ok p := by
  cases p <;> rfl

/-- DiscardPolicy determines what happens when limits are hit. -/
inductive DiscardPolicy where
  | DiscardOld
  | DiscardNew
  deriving DecidableEq

/-- Translation of `impl Default for DiscardPolicy`. -/
def DiscardPolicy.default : DiscardPolicy := .DiscardOld

/-- Wire tags of `DiscardPolicy`. -/
def DiscardPolicy.encode : DiscardPolicy → Json
  | .DiscardOld => .str "old"
  | .DiscardNew => .str "new"

/-- Tag-string decoding of `DiscardPolicy`. -/
def DiscardPolicy.decode : Json → Except DecodeError DiscardPolicy
  | .str s =>
      if s = "old" then .ok .DiscardOld
      else if s = "new" then .ok .DiscardNew
      else .error (.unknownVariant "DiscardPolicy" s)
  | _ => .error (.invalidType "DiscardPolicy")

theorem discardPolicy_decode_encode (p : DiscardPolicy) :
    DiscardPolicy.decode (DiscardPolicy.encode p) = .ok p := by
  cases p <;> rfl

/-- StorageType determines how messages are stored for retention. -/
inductive StorageType where
  | FileStorage
  | MemoryStorage
  deriving DecidableEq

/-- Translation of `impl Default for StorageType`. -/
def StorageType.default : StorageType := .FileStorage

/-- Wire tags of `StorageType`. -/
def StorageType.encode : StorageType → Json
  | .FileStorage => .str "file"
  | .MemoryStorage => .str "memory"

/-- Tag-string decoding of `StorageType`. -/
def StorageType.decode : Json → Except DecodeError StorageType
  | .str s =>
      if s = "file" then .ok .FileStorage
      else if s = "memory" then .ok .MemoryStorage
      else .error (.unknownVariant "StorageType" s)
  | _ => .error (.invalidType "StorageType")

theorem storageType_decode_encode (p : StorageType) :
    StorageType.decode (StorageType.encode p) = .ok p := by
  cases p <;> rfl

/-! ## Except reduction lemmas for the decoder proofs -/

theorem ok_bind {ε α β : Type} (a : α) (f : α → Except ε β) :
    (Except.ok a >>= f) = f a := rfl

theorem error_bind {ε α β : Type} (e : ε) (f : α → Except ε β) :
    ((Except.error e : Except ε α) >>= f) = .error e := rfl

theorem pure_ok {ε α : Type} (a : α) : (pure a : Except ε α) = .ok a := rfl

/-! ## Configuration records -/

/-- Configuration for consumers: translation of `struct ConsumerConfig`. -/
structure ConsumerConfig where
  durable_name : Option String
  deliver_subject : Option String
  deliver_policy : DeliverPolicy
  opt_start_seq : Option Int
  opt_start_time : Option DateTime
  ack_policy : AckPolicy
  ack_wait : Option Int
  max_deliver : Option Int
  filter_subject : Option String
  replay_policy : ReplayPolicy
  rate_limit : Option Int
  sample_frequency : Option String
  max_waiting : Option Int
  max_ack_pending : Option Int
  deriving DecidableEq

/-- Translation of the derived `Default` impl: every field at its own
default (options absent, policies at their documented defaults). -/
def ConsumerConfig.default : ConsumerConfig where
  durable_name := none
  deliver_subject := none
  deliver_policy := DeliverPolicy.default
  opt_start_seq := none
  opt_start_time := none
  ack_policy := AckPolicy.default
  ack_wait := none
  max_deliver := none
  filter_subject := none
  replay_policy := ReplayPolicy.default
  rate_limit := none
  sample_frequency := none
  max_waiting := none
  max_ack_pending := none

/-- Translation of `impl From<&str> for ConsumerConfig`. -/
def ConsumerConfig.fromName (s : String) : ConsumerConfig :=
  { ConsumerConfig.default with durable_name := some s }

/-- The derived `Serialize` impl: one entry per field, declaration order. -/
def ConsumerConfig.encode (c : ConsumerConfig) : Json :=
  .obj [
    ("durable_name", encOpt encStr c.durable_name),
    ("deliver_subject", encOpt encStr c.deliver_subject),
    ("deliver_policy", DeliverPolicy.encode c.deliver_policy),
    ("opt_start_seq", encOpt encInt c.opt_start_seq),
    ("opt_start_time", encOpt DateTime.encode c.opt_start_time),
    ("ack_policy", AckPolicy.encode c.ack_policy),
    ("ack_wait", encOpt encInt c.ack_wait),
    ("max_deliver", encOpt encInt c.max_deliver),
    ("filter_subject", encOpt encStr c.filter_subject),
    ("replay_policy", ReplayPolicy.encode c.replay_policy),
    ("rate_limit", encOpt encInt c.rate_limit),
    ("sample_frequency", encOpt encStr c.sample_frequency),
    ("max_waiting", encOpt encInt c.max_waiting),
    ("max_ack_pending", encOpt encInt c.max_ack_pending)]

/-- The recognized field keys of `ConsumerConfig`. -/
def ConsumerConfig.fieldKeys : List String :=
  ["durable_name", "deliver_subject", "deliver_policy", "opt_start_seq",
   "opt_start_time", "ack_policy", "ack_wait", "max_deliver", "filter_subject",
   "replay_policy", "rate_limit", "sample_frequency", "max_waiting",
   "max_ack_pending"]

/-- Per-key value decoders for the document-order pass of `ConsumerConfig`. -/
def ConsumerConfig.fieldChecks : List (String × (Json → Except DecodeError Unit)) :=
  [("durable_name", chk (decOpt decStr)),
   ("deliver_subject", chk (decOpt decStr)),
   ("deliver_policy", chk DeliverPolicy.decode),
   ("opt_start_seq", chk (decOpt decInt)),
   ("opt_start_time", chk (decOpt DateTime.decode)),
   ("ack_policy", chk AckPolicy.decode),
   ("ack_wait", chk (decOpt decInt)),
   ("max_deliver", chk (decOpt decInt)),
   ("filter_subject", chk (decOpt decStr)),
   ("replay_policy", chk ReplayPolicy.decode),
   ("rate_limit", chk (decOpt decInt)),
   ("sample_frequency", chk (decOpt decStr)),
   ("max_waiting", chk (decOpt decInt)),
   ("max_ack_pending", chk (decOpt decInt))]

/-- The derived `Deserialize` impl of `ConsumerConfig`: document-order value
pass, then field extraction (policies are required, options default to
`None`). -/
def ConsumerConfig.decode : Json → Except DecodeError ConsumerConfig
  | .obj o => do
      checkEntries ConsumerConfig.fieldChecks o
      let durable_name ← optField o "durable_name" decStr
      let deliver_subject ← optField o "deliver_subject" decStr
      let deliver_policy ← reqField o "deliver_policy" DeliverPolicy.decode
      let opt_start_seq ← optField o "opt_start_seq" decInt
      let opt_start_time ← optField o "opt_start_time" DateTime.decode
      let ack_policy ← reqField o "ack_policy" AckPolicy.decode
      let ack_wait ← optField o "ack_wait" decInt
      let max_deliver ← optField o "max_deliver" decInt
      let filter_subject ← optField o "filter_subject" decStr
      let replay_policy ← reqField o "replay_policy" ReplayPolicy.decode
      let rate_limit ← optField o "rate_limit" decInt
      let sample_frequency ← optField o "sample_frequency" decStr
      let max_waiting ← optField o "max_waiting" decInt
      let max_ack_pending ← optField o "max_ack_pending" decInt
      pure { durable_name, deliver_subject, deliver_policy, opt_start_seq,
             opt_start_time, ack_policy, ack_wait, max_deliver, filter_subject,
             replay_policy, rate_limit, sample_frequency, max_waiting,
             max_ack_pending }
  | _ => .error (.invalidType "ConsumerConfig")

theorem consumerConfig_decode_encode (c : ConsumerConfig) :
    ConsumerConfig.decode (ConsumerConfig.encode c) = .ok c := by
  cases c
  simp [ConsumerConfig.decode, ConsumerConfig.encode, ConsumerConfig.fieldChecks,
    checkEntries, chk, optField, reqField, List.lookup, ok_bind, error_bind, pure_ok,
    decOpt_encOpt_str, decOpt_encOpt_int, decOpt_encOpt_time,
    deliverPolicy_decode_encode, ackPolicy_decode_encode, replayPolicy_decode_encode,
    Except.map]

/-- StreamConfig determines the properties for a stream: translation of
`struct StreamConfig`. -/
structure StreamConfig where
  subjects : Option (List String)
  name : String
  retention : RetentionPolicy
  max_consumers : Int
  max_msgs : Int
  max_bytes : Int
  discard : DiscardPolicy
  max_age : Int
  max_msg_size : Option Int
  storage : StorageType
  num_replicas : Nat
  no_ack : Option Bool
  template_owner : Option String
  duplicate_window : Option Int
  deriving DecidableEq

/-- Translation of the derived `Default` impl of `StreamConfig`. -/
def StreamConfig.default : StreamConfig where
  subjects := none
  name := ""
  retention := RetentionPolicy.default
  max_consumers := 0
  max_msgs := 0
  max_bytes := 0
  discard := DiscardPolicy.default
  max_age := 0
  max_msg_size := none
  storage := StorageType.default
  num_replicas := 0
  no_ack := none
  template_owner := none
  duplicate_window := none

/-- Translation of `impl From<&str> for StreamConfig`. -/
def StreamConfig.fromName (s : String) : StreamConfig :=
  { StreamConfig.default with name := s }

/-- The derived `Serialize` impl of `StreamConfig`. -/
def StreamConfig.encode (c : StreamConfig) : Json :=
  .obj [
    ("subjects", encOpt encStrList c.subjects),
    ("name", encStr c.name),
    ("retention", RetentionPolicy.encode c.retention),
    ("max_consumers", encInt c.max_consumers),
    ("max_msgs", encInt c.max_msgs),
    ("max_bytes", encInt c.max_bytes),
    ("discard", DiscardPolicy.encode c.discard),
    ("max_age", encInt c.max_age),
    ("max_msg_size", encOpt encInt c.max_msg_size),
    ("storage", StorageType.encode c.storage),
    ("num_replicas", encNat c.num_replicas),
    ("no_ack", encOpt encBool c.no_ack),
    ("template_owner", encOpt encStr c.template_owner),
    ("duplicate_window", encOpt encInt c.duplicate_window)]

/-- The recognized field keys of `StreamConfig`. -/
def StreamConfig.fieldKeys : List String :=
  ["subjects", "name", "retention", "max_consumers", "max_msgs", "max_bytes",
   "discard", "max_age", "max_msg_size", "storage", "num_replicas", "no_ack",
   "template_owner", "duplicate_window"]

/-- Per-key value decoders for the document-order pass of `StreamConfig`. -/
def StreamConfig.fieldChecks : List (String × (Json → Except DecodeError Unit)) :=
  [("subjects", chk (decOpt decStrList)),
   ("name", chk decStr),
   ("retention", chk RetentionPolicy.decode),
   ("max_consumers", chk decInt),
   ("max_msgs", chk decInt),
   ("max_bytes", chk decInt),
   ("discard", chk DiscardPolicy.decode),
   ("max_age", chk decInt),
   ("max_msg_size", chk (decOpt decInt)),
   ("storage", chk StorageType.decode),
   ("num_replicas", chk decNat),
   ("no_ack", chk (decOpt decBool)),
   ("template_owner", chk (decOpt decStr)),
   ("duplicate_window", chk (decOpt decInt))]

/-- The derived `Deserialize` impl of `StreamConfig`: every non-`Option`
field is required (there is no `serde(default)` attribute on this struct). -/
def StreamConfig.decode : Json → Except DecodeError StreamConfig
  | .obj o => do
      checkEntries StreamConfig.fieldChecks o
      let subjects ← optField o "subjects" decStrList
      let name ← reqField o "name" decStr
      let retention ← reqField o "retention" RetentionPolicy.decode
      let max_consumers ← reqField o "max_consumers" decInt
      let max_msgs ← reqField o "max_msgs" decInt
      let max_bytes ← reqField o "max_bytes" decInt
      let discard ← reqField o "discard" DiscardPolicy.decode
      let max_age ← reqField o "max_age" decInt
      let max_msg_size ← optField o "max_msg_size" decInt
      let storage ← reqField o "storage" StorageType.decode
      let num_replicas ← reqField o "num_replicas" decNat
      let no_ack ← optField o "no_ack" decBool
      let template_owner ← optField o "template_owner" decStr
      let duplicate_window ← optField o "duplicate_window" decInt
      pure { subjects, name, retention, max_consumers, max_msgs, max_bytes,
             discard, max_age, max_msg_size, storage, num_replicas, no_ack,
             template_owner, duplicate_window }
  | _ => .error (.invalidType "StreamConfig")

theorem streamConfig_decode_encode (c : StreamConfig) :
    StreamConfig.decode (StreamConfig.encode c) = .ok c := by
  cases c
  simp [StreamConfig.decode, StreamConfig.encode, StreamConfig.fieldChecks,
    checkEntries, chk, optField, reqField, List.lookup, ok_bind, error_bind, pure_ok,
    decOpt_encOpt_str, decOpt_encOpt_int, decOpt_encOpt_bool, decOpt_encOpt_strList,
    decStr_encStr, decInt_encInt, decNat_encNat,
    retentionPolicy_decode_encode, discardPolicy_decode_encode, storageType_decode_encode,
    Except.map]

/-! ## Status records -/

/-- StreamState (named `StreamStats` in the source comment): information about
the given stream.  The `msgs` field carries `#[serde(default)]`. -/
structure StreamState where
  msgs : Nat
  bytes : Nat
  first_seq : Nat
  first_ts : String
  last_seq : Nat
  last_ts : DateTime
  consumer_count : Nat
  deriving DecidableEq

/-- The derived `Serialize` impl of `StreamState`. -/
def StreamState.encode (s : StreamState) : Json :=
  .obj [
    ("msgs", encNat s.msgs),
    ("bytes", encNat s.bytes),
    ("first_seq", encNat s.first_seq),
    ("first_ts", encStr s.first_ts),
    ("last_seq", encNat s.last_seq),
    ("last_ts", DateTime.encode s.last_ts),
    ("consumer_count", encNat s.consumer_count)]

/-- The recognized field keys of `StreamState`. -/
def StreamState.fieldKeys : List String :=
  ["msgs", "bytes", "first_seq", "first_ts", "last_seq", "last_ts",
   "consumer_count"]

/-- Per-key value decoders for the document-order pass of `StreamState`. -/
def StreamState.fieldChecks : List (String × (Json → Except DecodeError Unit)) :=
  [("msgs", chk decNat),
   ("bytes", chk decNat),
   ("first_seq", chk decNat),
   ("first_ts", chk decStr),
   ("last_seq", chk decNat),
   ("last_ts", chk DateTime.decode),
   ("consumer_count", chk decNat)]

/-- The derived `Deserialize` impl of `StreamState`: `msgs` falls back to its
default (zero) when absent, every other field is required. -/
def StreamState.decode : Json → Except DecodeError StreamState
  | .obj o => do
      checkEntries StreamState.fieldChecks o
      let msgs ← defField o "msgs" decNat 0
      let bytes ← reqField o "bytes" decNat
      let first_seq ← reqField o "first_seq" decNat
      let first_ts ← reqField o "first_ts" decStr
      let last_seq ← reqField o "last_seq" decNat
      let last_ts ← reqField o "last_ts" DateTime.decode
      let consumer_count ← reqField o "consumer_count" decNat
      pure { msgs, bytes, first_seq, first_ts, last_seq, last_ts,
             consumer_count }
  | _ => .error (.invalidType "StreamState")

theorem streamState_decode_encode (s : StreamState) :
    StreamState.decode (StreamState.encode s) = .ok s := by
  cases s
  simp [StreamState.decode, StreamState.encode, StreamState.fieldChecks,
    checkEntries, chk, optField, reqField, defField, List.lookup,
    ok_bind, error_bind, pure_ok, decStr_encStr, decNat_encNat,
    dateTime_decode_encode, Except.map]

/-- StreamInfo shows config and current state for this stream. -/
structure StreamInfo where
  type : String
  config : StreamConfig
  created : DateTime
  state : StreamState
  deriving DecidableEq

/-- The derived `Serialize` impl of `StreamInfo` (`r#type` serializes under
the key `type`). -/
def StreamInfo.encode (i : StreamInfo) : Json :=
  .obj [
    ("type", encStr i.type),
    ("config", StreamConfig.encode i.config),
    ("created", DateTime.encode i.created),
    ("state", StreamState.encode i.state)]

/-- The recognized field keys of `StreamInfo`. -/
def StreamInfo.fieldKeys : List String := ["type", "config", "created", "state"]

/-- Per-key value decoders for the document-order pass of `StreamInfo`. -/
def StreamInfo.fieldChecks : List (String × (Json → Except DecodeError Unit)) :=
  [("type", chk decStr),
   ("config", chk StreamConfig.decode),
   ("created", chk DateTime.decode),
   ("state", chk StreamState.decode)]

/-- The derived `Deserialize` impl of `StreamInfo`: all fields required. -/
def StreamInfo.decode : Json → Except DecodeError StreamInfo
  | .obj o => do
      checkEntries StreamInfo.fieldChecks o
      let t ← reqField o "type" decStr
      let config ← reqField o "config" StreamConfig.decode
      let created ← reqField o "created" DateTime.decode
      let state ← reqField o "state" StreamState.decode
      pure { type := t, config, created, state }
  | _ => .error (.invalidType "StreamInfo")

theorem streamInfo_decode_encode (i : StreamInfo) :
    StreamInfo.decode (StreamInfo.encode i) = .ok i := by
  cases i
  simp [StreamInfo.decode, StreamInfo.encode, StreamInfo.fieldChecks,
    checkEntries, chk, reqField, List.lookup, ok_bind, error_bind, pure_ok,
    decStr_encStr, streamConfig_decode_encode, streamState_decode_encode,
    dateTime_decode_encode, Except.map]

/-- AccountLimits: account-level JetStream limits. -/
structure AccountLimits where
  max_memory : Int
  max_storage : Int
  max_streams : Int
  max_consumers : Int
  deriving DecidableEq

/-- The derived `Serialize` impl of `AccountLimits`. -/
def AccountLimits.encode (l : AccountLimits) : Json :=
  .obj [
    ("max_memory", encInt l.max_memory),
    ("max_storage", encInt l.max_storage),
    ("max_streams", encInt l.max_streams),
    ("max_consumers", encInt l.max_consumers)]

/-- Per-key value decoders for the document-order pass of `AccountLimits`. -/
def AccountLimits.fieldChecks : List (String × (Json → Except DecodeError Unit)) :=
  [("max_memory", chk decInt),
   ("max_storage", chk decInt),
   ("max_streams", chk decInt),
   ("max_consumers", chk decInt)]

/-- The derived `Deserialize` impl of `AccountLimits`. -/
def AccountLimits.decode : Json → Except DecodeError AccountLimits
  | .obj o => do
      checkEntries AccountLimits.fieldChecks o
      let max_memory ← reqField o "max_memory" decInt
      let max_storage ← reqField o "max_storage" decInt
      let max_streams ← reqField o "max_streams" decInt
      let max_consumers ← reqField o "max_consumers" decInt
      pure { max_memory, max_storage, max_streams, max_consumers }
  | _ => .error (.invalidType "AccountLimits")

theorem accountLimits_decode_encode (l : AccountLimits) :
    AccountLimits.decode (AccountLimits.encode l) = .ok l := by
  cases l
  simp [AccountLimits.decode, AccountLimits.encode, AccountLimits.fieldChecks,
    checkEntries, chk, reqField, List.lookup, ok_bind, error_bind, pure_ok,
    decInt_encInt, Except.map]

/-- ApiStats reports on API calls to JetStream for this account. -/
structure ApiStats where
  total : Nat
  errors : Nat
  deriving DecidableEq

/-- The derived `Serialize` impl of `ApiStats`. -/
def ApiStats.encode (a : ApiStats) : Json :=
  .obj [("total", encNat a.total), ("errors", encNat a.errors)]

/-- Per-key value decoders for the document-order pass of `ApiStats`. -/
def ApiStats.fieldChecks : List (String × (Json → Except DecodeError Unit)) :=
  [("total", chk decNat), ("errors", chk decNat)]

/-- The derived `Deserialize` impl of `ApiStats`. -/
def ApiStats.decode : Json → Except DecodeError ApiStats
  | .obj o => do
      checkEntries ApiStats.fieldChecks o
      let total ← reqField o "total" decNat
      let errors ← reqField o "errors" decNat
      pure { total, errors }
  | _ => .error (.invalidType "ApiStats")

theorem apiStats_decode_encode (a : ApiStats) :
    ApiStats.decode (ApiStats.encode a) = .ok a := by
  cases a
  simp [ApiStats.decode, ApiStats.encode, ApiStats.fieldChecks,
    checkEntries, chk, reqField, List.lookup, ok_bind, error_bind, pure_ok,
    decNat_encNat, Except.map]

/-- AccountInfo contains info about the JetStream usage from the current
account (`r#type` serializes under the key `type`). -/
structure AccountInfo where
  type : String
  memory : Int
  storage : Int
  streams : Int
  consumers : Int
  api : ApiStats
  limits : AccountLimits
  deriving DecidableEq

/-- The derived `Serialize` impl of `AccountInfo`. -/
def AccountInfo.encode (a : AccountInfo) : Json :=
  .obj [
    ("type", encStr a.type),
    ("memory", encInt a.memory),
    ("storage", encInt a.storage),
    ("streams", encInt a.streams),
    ("consumers", encInt a.consumers),
    ("api", ApiStats.encode a.api),
    ("limits", AccountLimits.encode a.limits)]

/-- Per-key value decoders for the document-order pass of `AccountInfo`. -/
def AccountInfo.fieldChecks : List (String × (Json → Except DecodeError Unit)) :=
  [("type", chk decStr),
   ("memory", chk decInt),
   ("storage", chk decInt),
   ("streams", chk decInt),
   ("consumers", chk decInt),
   ("api", chk ApiStats.decode),
   ("limits", chk AccountLimits.decode)]

/-- The derived `Deserialize` impl of `AccountInfo`. -/
def AccountInfo.decode : Json → Except DecodeError AccountInfo
  | .obj o => do
      checkEntries AccountInfo.fieldChecks o
      let t ← reqField o "type" decStr
      let memory ← reqField o "memory" decInt
      let storage ← reqField o "storage" decInt
      let streams ← reqField o "streams" decInt
      let consumers ← reqField o "consumers" decInt
      let api ← reqField o "api" ApiStats.decode
      let limits ← reqField o "limits" AccountLimits.decode
      pure { type := t, memory, storage, streams, consumers, api, limits }
  | _ => .error (.invalidType "AccountInfo")

theorem accountInfo_decode_encode (a : AccountInfo) :
    AccountInfo.decode (AccountInfo.encode a) = .ok a := by
  cases a
  simp [AccountInfo.decode, AccountInfo.encode, AccountInfo.fieldChecks,
    checkEntries, chk, reqField, List.lookup, ok_bind, error_bind, pure_ok,
    decStr_encStr, decInt_encInt, apiStats_decode_encode, accountLimits_decode_encode,
    Except.map]

/-- PubAck: acknowledgment of a publish. -/
structure PubAck where
  stream : String
  seq : Nat
  duplicate : Option Bool
  deriving DecidableEq

/-- The derived `Serialize` impl of `PubAck`. -/
def PubAck.encode (p : PubAck) : Json :=
  .obj [
    ("stream", encStr p.stream),
    ("seq", encNat p.seq),
    ("duplicate", encOpt encBool p.duplicate)]

/-- Per-key value decoders for the document-order pass of `PubAck`. -/
def PubAck.fieldChecks : List (String × (Json → Except DecodeError Unit)) :=
  [("stream", chk decStr), ("seq", chk decNat), ("duplicate", chk (decOpt decBool))]

/-- The derived `Deserialize` impl of `PubAck`. -/
def PubAck.decode : Json → Except DecodeError PubAck
  | .obj o => do
      checkEntries PubAck.fieldChecks o
      let stream ← reqField o "stream" decStr
      let seq ← reqField o "seq" decNat
      let duplicate ← optField o "duplicate" decBool
      pure { stream, seq, duplicate }
  | _ => .error (.invalidType "PubAck")

theorem pubAck_decode_encode (p : PubAck) :
    PubAck.decode (PubAck.encode p) = .ok p := by
  cases p
  simp [PubAck.decode, PubAck.encode, PubAck.fieldChecks,
    checkEntries, chk, reqField, optField, List.lookup, ok_bind, error_bind, pure_ok,
    decStr_encStr, decNat_encNat, decOpt_encOpt_bool, Except.map]

/-- CreateConsumerRequest pairs a stream name with a consumer configuration. -/
structure CreateConsumerRequest where
  stream_name : String
  config : ConsumerConfig
  deriving DecidableEq

/-- The derived `Serialize` impl of `CreateConsumerRequest`. -/
def CreateConsumerRequest.encode (r : CreateConsumerRequest) : Json :=
  .obj [
    ("stream_name", encStr r.stream_name),
    ("config", ConsumerConfig.encode r.config)]

/-- Per-key value decoders for `CreateConsumerRequest`. -/
def CreateConsumerRequest.fieldChecks : List (String × (Json → Except DecodeError Unit)) :=
  [("stream_name", chk decStr), ("config", chk ConsumerConfig.decode)]

/-- The derived `Deserialize` impl of `CreateConsumerRequest`. -/
def CreateConsumerRequest.decode : Json → Except DecodeError CreateConsumerRequest
  | .obj o => do
      checkEntries CreateConsumerRequest.fieldChecks o
      let stream_name ← reqField o "stream_name" decStr
      let config ← reqField o "config" ConsumerConfig.decode
      pure { stream_name, config }
  | _ => .error (.invalidType "CreateConsumerRequest")

theorem createConsumerRequest_decode_encode (r : CreateConsumerRequest) :
    CreateConsumerRequest.decode (CreateConsumerRequest.encode r) = .ok r := by
  cases r
  simp [CreateConsumerRequest.decode, CreateConsumerRequest.encode,
    CreateConsumerRequest.fieldChecks, checkEntries, chk, reqField, List.lookup,
    ok_bind, error_bind, pure_ok, decStr_encStr, consumerConfig_decode_encode,
    Except.map]

/-- SequencePair: paired consumer-local and stream-global sequence numbers. -/
structure SequencePair where
  consumer_seq : Nat
  stream_seq : Nat
  deriving DecidableEq

/-- The derived `Serialize` impl of `SequencePair`. -/
def SequencePair.encode (p : SequencePair) : Json :=
  .obj [("consumer_seq", encNat p.consumer_seq), ("stream_seq", encNat p.stream_seq)]

/-- Per-key value decoders for `SequencePair`. -/
def SequencePair.fieldChecks : List (String × (Json → Except DecodeError Unit)) :=
  [("consumer_seq", chk decNat), ("stream_seq", chk decNat)]

/-- The derived `Deserialize` impl of `SequencePair`. -/
def SequencePair.decode : Json → Except DecodeError SequencePair
  | .obj o => do
      checkEntries SequencePair.fieldChecks o
      let consumer_seq ← reqField o "consumer_seq" decNat
      let stream_seq ← reqField o "stream_seq" decNat
      pure { consumer_seq, stream_seq }
  | _ => .error (.invalidType "SequencePair")

theorem sequencePair_decode_encode (p : SequencePair) :
    SequencePair.decode (SequencePair.encode p) = .ok p := by
  cases p
  simp [SequencePair.decode, SequencePair.encode, SequencePair.fieldChecks,
    checkEntries, chk, reqField, List.lookup, ok_bind, error_bind, pure_ok,
    decNat_encNat, Except.map]

/-- ClusterInfo: the cluster leader for a consumer. -/
structure ClusterInfo where
  leader : String
  deriving DecidableEq

/-- The derived `Serialize` impl of `ClusterInfo`. -/
def ClusterInfo.encode (c : ClusterInfo) : Json := .obj [("leader", encStr c.leader)]

/-- Per-key value decoders for `ClusterInfo`. -/
def ClusterInfo.fieldChecks : List (String × (Json → Except DecodeError Unit)) :=
  [("leader", chk decStr)]

/-- The derived `Deserialize` impl of `ClusterInfo`. -/
def ClusterInfo.decode : Json → Except DecodeError ClusterInfo
  | .obj o => do
      checkEntries ClusterInfo.fieldChecks o
      let leader ← reqField o "leader" decStr
      pure { leader }
  | _ => .error (.invalidType "ClusterInfo")

theorem clusterInfo_decode_encode (c : ClusterInfo) :
    ClusterInfo.decode (ClusterInfo.encode c) = .ok c := by
  cases c
  simp [ClusterInfo.decode, ClusterInfo.encode, ClusterInfo.fieldChecks,
    checkEntries, chk, reqField, List.lookup, ok_bind, error_bind, pure_ok,
    decStr_encStr, Except.map]

/-- ConsumerInfo: a broker-authored snapshot of one consumer (`r#type`
serializes under the key `type`). -/
structure ConsumerInfo where
  type : String
  stream_name : String
  name : String
  created : DateTime
  config : ConsumerConfig
  delivered : SequencePair
  ack_floor : SequencePair
  num_ack_pending : Nat
  num_redelivered : Nat
  num_waiting : Nat
  num_pending : Nat
  cluster : ClusterInfo
  deriving DecidableEq

/-- The derived `Serialize` impl of `ConsumerInfo`. -/
def ConsumerInfo.encode (i : ConsumerInfo) : Json :=
  .obj [
    ("type", encStr i.type),
    ("stream_name", encStr i.stream_name),
    ("name", encStr i.name),
    ("created", DateTime.encode i.created),
    ("config", ConsumerConfig.encode i.config),
    ("delivered", SequencePair.encode i.delivered),
    ("ack_floor", SequencePair.encode i.ack_floor),
    ("num_ack_pending", encNat i.num_ack_pending),
    ("num_redelivered", encNat i.num_redelivered),
    ("num_waiting", encNat i.num_waiting),
    ("num_pending", encNat i.num_pending),
    ("cluster", ClusterInfo.encode i.cluster)]

/-- Per-key value decoders for `ConsumerInfo`. -/
def ConsumerInfo.fieldChecks : List (String × (Json → Except DecodeError Unit)) :=
  [("type", chk decStr),
   ("stream_name", chk decStr),
   ("name", chk decStr),
   ("created", chk DateTime.decode),
   ("config", chk ConsumerConfig.decode),
   ("delivered", chk SequencePair.decode),
   ("ack_floor", chk SequencePair.decode),
   ("num_ack_pending", chk decNat),
   ("num_redelivered", chk decNat),
   ("num_waiting", chk decNat),
   ("num_pending", chk decNat),
   ("cluster", chk ClusterInfo.decode)]

/-- The derived `Deserialize` impl of `ConsumerInfo`. -/
def ConsumerInfo.decode : Json → Except DecodeError ConsumerInfo
  | .obj o => do
      checkEntries ConsumerInfo.fieldChecks o
      let t ← reqField o "type" decStr
      let stream_name ← reqField o "stream_name" decStr
      let name ← reqField o "name" decStr
      let created ← reqField o "created" DateTime.decode
      let config ← reqField o "config" ConsumerConfig.decode
      let delivered ← reqField o "delivered" SequencePair.decode
      let ack_floor ← reqField o "ack_floor" SequencePair.decode
      let num_ack_pending ← reqField o "num_ack_pending" decNat
      let num_redelivered ← reqField o "num_redelivered" decNat
      let num_waiting ← reqField o "num_waiting" decNat
      let num_pending ← reqField o "num_pending" decNat
      let cluster ← reqField o "cluster" ClusterInfo.decode
      pure { type := t, stream_name, name, created, config, delivered,
             ack_floor, num_ack_pending, num_redelivered, num_waiting,
             num_pending, cluster }
  | _ => .error (.invalidType "ConsumerInfo")

theorem consumerInfo_decode_encode (i : ConsumerInfo) :
    ConsumerInfo.decode (ConsumerInfo.encode i) = .ok i := by
  cases i
  simp [ConsumerInfo.decode, ConsumerInfo.encode, ConsumerInfo.fieldChecks,
    checkEntries, chk, reqField, List.lookup, ok_bind, error_bind, pure_ok,
    decStr_encStr, decNat_encNat, dateTime_decode_encode, consumerConfig_decode_encode,
    sequencePair_decode_encode, clusterInfo_decode_encode, Except.map]

/-! ## Request and option envelopes -/

/-- NextRequest is for getting next messages for pull based consumers. -/
structure NextRequest where
  expires : DateTime
  batch : Option Nat
  no_wait : Option Bool
  deriving DecidableEq

/-- The derived `Serialize` impl of `NextRequest`. -/
def NextRequest.encode (r : NextRequest) : Json :=
  .obj [
    ("expires", DateTime.encode r.expires),
    ("batch", encOpt encNat r.batch),
    ("no_wait", encOpt encBool r.no_wait)]

/-- Per-key value decoders for `NextRequest`. -/
def NextRequest.fieldChecks : List (String × (Json → Except DecodeError Unit)) :=
  [("expires", chk DateTime.decode),
   ("batch", chk (decOpt decNat)),
   ("no_wait", chk (decOpt decBool))]

/-- The derived `Deserialize` impl of `NextRequest`. -/
def NextRequest.decode : Json → Except DecodeError NextRequest
  | .obj o => do
      checkEntries NextRequest.fieldChecks o
      let expires ← reqField o "expires" DateTime.decode
      let batch ← optField o "batch" decNat
      let no_wait ← optField o "no_wait" decBool
      pure { expires, batch, no_wait }
  | _ => .error (.invalidType "NextRequest")

theorem nextRequest_decode_encode (r : NextRequest) :
    NextRequest.decode (NextRequest.encode r) = .ok r := by
  cases r
  simp [NextRequest.decode, NextRequest.encode, NextRequest.fieldChecks,
    checkEntries, chk, reqField, optField, List.lookup, ok_bind, error_bind, pure_ok,
    dateTime_decode_encode, decOpt_encOpt_nat, decOpt_encOpt_bool, Except.map]

/-- StreamRequest carries an optional subject filter. -/
structure StreamRequest where
  subject : Option String
  deriving DecidableEq

/-- The derived `Serialize` impl of `StreamRequest`. -/
def StreamRequest.encode (r : StreamRequest) : Json :=
  .obj [("subject", encOpt encStr r.subject)]

/-- Per-key value decoders for `StreamRequest`. -/
def StreamRequest.fieldChecks : List (String × (Json → Except DecodeError Unit)) :=
  [("subject", chk (decOpt decStr))]

/-- The derived `Deserialize` impl of `StreamRequest`. -/
def StreamRequest.decode : Json → Except DecodeError StreamRequest
  | .obj o => do
      checkEntries StreamRequest.fieldChecks o
      let subject ← optField o "subject" decStr
      pure { subject }
  | _ => .error (.invalidType "StreamRequest")

theorem streamRequest_decode_encode (r : StreamRequest) :
    StreamRequest.decode (StreamRequest.encode r) = .ok r := by
  cases r
  simp [StreamRequest.decode, StreamRequest.encode, StreamRequest.fieldChecks,
    checkEntries, chk, optField, List.lookup, ok_bind, error_bind, pure_ok,
    decOpt_encOpt_str, Except.map]

/-- SubOpts: subscription options for attaching, pulling and acking. -/
structure SubOpts where
  stream : String
  consumer : String
  pull : Nat
  mack : Bool
  cfg : ConsumerConfig
  deriving DecidableEq

/-- The derived `Serialize` impl of `SubOpts`. -/
def SubOpts.encode (s : SubOpts) : Json :=
  .obj [
    ("stream", encStr s.stream),
    ("consumer", encStr s.consumer),
    ("pull", encNat s.pull),
    ("mack", encBool s.mack),
    ("cfg", ConsumerConfig.encode s.cfg)]

/-- Per-key value decoders for `SubOpts`. -/
def SubOpts.fieldChecks : List (String × (Json → Except DecodeError Unit)) :=
  [("stream", chk decStr),
   ("consumer", chk decStr),
   ("pull", chk decNat),
   ("mack", chk decBool),
   ("cfg", chk ConsumerConfig.decode)]

/-- The derived `Deserialize` impl of `SubOpts`. -/
def SubOpts.decode : Json → Except DecodeError SubOpts
  | .obj o => do
      checkEntries SubOpts.fieldChecks o
      let stream ← reqField o "stream" decStr
      let consumer ← reqField o "consumer" decStr
      let pull ← reqField o "pull" decNat
      let mack ← reqField o "mack" decBool
      let cfg ← reqField o "cfg" ConsumerConfig.decode
      pure { stream, consumer, pull, mack, cfg }
  | _ => .error (.invalidType "SubOpts")

theorem subOpts_decode_encode (s : SubOpts) :
    SubOpts.decode (SubOpts.encode s) = .ok s := by
  cases s
  simp [SubOpts.decode, SubOpts.encode, SubOpts.fieldChecks,
    checkEntries, chk, reqField, List.lookup, ok_bind, error_bind, pure_ok,
    decStr_encStr, decNat_encNat, decBool_encBool, consumerConfig_decode_encode,
    Except.map]

/-- PubOpts: publish options (ttl and expectations on the last message). -/
structure PubOpts where
  ttl : Int
  id : String
  lid : String
  str : String
  seq : Nat
  deriving DecidableEq

/-- The derived `Serialize` impl of `PubOpts`. -/
def PubOpts.encode (p : PubOpts) : Json :=
  .obj [
    ("ttl", encInt p.ttl),
    ("id", encStr p.id),
    ("lid", encStr p.lid),
    ("str", encStr p.str),
    ("seq", encNat p.seq)]

/-- Per-key value decoders for `PubOpts`. -/
def PubOpts.fieldChecks : List (String × (Json → Except DecodeError Unit)) :=
  [("ttl", chk decInt),
   ("id", chk decStr),
   ("lid", chk decStr),
   ("str", chk decStr),
   ("seq", chk decNat)]

/-- The derived `Deserialize` impl of `PubOpts`. -/
def PubOpts.decode : Json → Except DecodeError PubOpts
  | .obj o => do
      checkEntries PubOpts.fieldChecks o
      let ttl ← reqField o "ttl" decInt
      let id ← reqField o "id" decStr
      let lid ← reqField o "lid" decStr
      let str ← reqField o "str" decStr
      let seq ← reqField o "seq" decNat
      pure { ttl, id, lid, str, seq }
  | _ => .error (.invalidType "PubOpts")

theorem pubOpts_decode_encode (p : PubOpts) :
    PubOpts.decode (PubOpts.encode p) = .ok p := by
  cases p
  simp [PubOpts.decode, PubOpts.encode, PubOpts.fieldChecks,
    checkEntries, chk, reqField, List.lookup, ok_bind, error_bind, pure_ok,
    decStr_encStr, decInt_encInt, decNat_encNat, Except.map]

/-! ## Unknown-key insertion lemmas

The derived deserializers look keys up and skip unrecognized entries, so
inserting an entry whose key no decoder recognizes cannot change the result.
These lemmas make that precise. -/

theorem lookup_cons_ne {β : Type} (es : List (String × β)) (q k : String) (b : β)
    (h : q ≠ k) : List.lookup q ((k, b) :: es) = List.lookup q es := by
  have hb : (q == k) = false := beq_eq_false_iff_ne.mpr h
  simp [List.lookup, hb]

theorem lookup_middle {β : Type} (l1 l2 : List (String × β)) (k q : String) (v : β)
    (h : k ≠ q) :
    List.lookup q (l1 ++ (k, v) :: l2) = List.lookup q (l1 ++ l2) := by
  induction l1 with
  | nil => simpa using lookup_cons_ne l2 q k v (Ne.symm h)
  | cons p l ih =>
      obtain ⟨pk, pv⟩ := p
      by_cases hq : q = pk
      · subst hq
        simp [List.lookup]
      · simp only [List.cons_append, lookup_cons_ne _ _ _ _ hq]
        exact ih

theorem checkEntries_middle (specs : List (String × (Json → Except DecodeError Unit)))
    (l1 l2 : List (String × Json)) (k : String) (v : Json)
    (h : specs.lookup k = none) :
    checkEntries specs (l1 ++ (k, v) :: l2) = checkEntries specs (l1 ++ l2) := by
  induction l1 with
  | nil => simp [checkEntries, h]
  | cons p l ih =>
      obtain ⟨pk, pv⟩ := p
      simp only [List.cons_append, checkEntries]
      cases hs : specs.lookup pk with
      | none => simpa using ih
      | some f =>
          split
          · simpa using ih
          · split
            · simpa using ih
            · rfl

theorem optField_middle {α : Type} (dec : Json → Except DecodeError α)
    (l1 l2 : List (String × Json)) (k q : String) (v : Json) (h : k ≠ q) :
    optField (l1 ++ (k, v) :: l2) q dec = optField (l1 ++ l2) q dec := by
  unfold optField
  rw [lookup_middle l1 l2 k q v h]

theorem reqField_middle {α : Type} (dec : Json → Except DecodeError α)
    (l1 l2 : List (String × Json)) (k q : String) (v : Json) (h : k ≠ q) :
    reqField (l1 ++ (k, v) :: l2) q dec = reqField (l1 ++ l2) q dec := by
  unfold reqField
  rw [lookup_middle l1 l2 k q v h]

theorem defField_middle {α : Type} (dec : Json → Except DecodeError α) (d : α)
    (l1 l2 : List (String × Json)) (k q : String) (v : Json) (h : k ≠ q) :
    defField (l1 ++ (k, v) :: l2) q dec d = defField (l1 ++ l2) q dec d := by
  unfold defField
  rw [lookup_middle l1 l2 k q v h]

theorem reqField_ok_isSome {α : Type} {o : List (String × Json)} {k : String}
    {dec : Json → Except DecodeError α} {a : α}
    (h : reqField o k dec = .ok a) : (o.lookup k).isSome = true := by
  unfold reqField at h
  cases hl : o.lookup k with
  | none => rw [hl] at h; exact Except.noConfusion h
  | some j => simp

/-! ## Concrete documents used by the scenario claims -/

/-- Remove every entry with the given key from an object's field list. -/
def dropKey (k : String) (o : List (String × Json)) : List (String × Json) :=
  o.filter fun p => p.1 != k

/-- A document carrying every required field of `StreamConfig` (and none of
the optional ones), each at its default wire value. -/
def streamDocFull : List (String × Json) :=
  [("name", .str "s"), ("retention", .str "limits"), ("max_consumers", .num 0),
   ("max_msgs", .num 0), ("max_bytes", .num 0), ("discard", .str "old"),
   ("max_age", .num 0), ("storage", .str "file"), ("num_replicas", .num 0)]

/-! ## Claims -/

/-- C1: for every valid Configuration, Status or Envelope record
(ConsumerConfig, StreamConfig, StreamInfo, ConsumerInfo, AccountInfo, PubAck,
CreateConsumerRequest, NextRequest, StreamRequest, SubOpts, PubOpts), decoding
the encoding of the record yields a record equal to it in every field. -/
theorem roundtrip_law :
    (∀ r : ConsumerConfig, ConsumerConfig.decode (ConsumerConfig.encode r) = .ok r) ∧
    (∀ r : StreamConfig, StreamConfig.decode (StreamConfig.encode r) = .ok r) ∧
    (∀ r : StreamInfo, StreamInfo.decode (StreamInfo.encode r) = .ok r) ∧
    (∀ r : ConsumerInfo, ConsumerInfo.decode (ConsumerInfo.encode r) = .ok r) ∧
    (∀ r : AccountInfo, AccountInfo.decode (AccountInfo.encode r) = .ok r) ∧
    (∀ r : PubAck, PubAck.decode (PubAck.encode r) = .ok r) ∧
    (∀ r : CreateConsumerRequest,
       CreateConsumerRequest.decode (CreateConsumerRequest.encode r) = .ok r) ∧
    (∀ r : NextRequest, NextRequest.decode (NextRequest.encode r) = .ok r) ∧
    (∀ r : StreamRequest, StreamRequest.decode (StreamRequest.encode r) = .ok r) ∧
    (∀ r : SubOpts, SubOpts.decode (SubOpts.encode r) = .ok r) ∧
    (∀ r : PubOpts, PubOpts.decode (PubOpts.encode r) = .ok r) :=
  ⟨consumerConfig_decode_encode, streamConfig_decode_encode, streamInfo_decode_encode,
   consumerInfo_decode_encode, accountInfo_decode_encode, pubAck_decode_encode,
   createConsumerRequest_decode_encode, nextRequest_decode_encode,
   streamRequest_decode_encode, subOpts_decode_encode, pubOpts_decode_encode⟩

/-- C3 counterexample: in the default `ConsumerConfig` the optional field
`durable_name` is unset, yet its encoding does contain the key
`durable_name` — mapped to an explicit `null` — so the encoding of a record
with an unset optional field is not key-free for that field. -/
theorem optional_unset_encodes_null_cex :
    ConsumerConfig.default.durable_name = none ∧
    List.lookup "durable_name" (ConsumerConfig.encode ConsumerConfig.default).objFields =
      some Json.null :=
  ⟨rfl, rfl⟩

/-- C3 amended: for every record and every optional field left unset — the
eleven options of `ConsumerConfig`, the five of `StreamConfig`,
`PubAck.duplicate`, `NextRequest.batch`, `NextRequest.no_wait` and
`StreamRequest.subject` — the encoding contains the key for that field mapped
to an explicit `null` (rather than omitting the key), and decoding that
encoding yields the field unset again. -/
theorem optional_unset_null_roundtrip (c : ConsumerConfig) (s : StreamConfig)
    (p : PubAck) (n : NextRequest) (r : StreamRequest) :
    List.lookup "durable_name"
      (ConsumerConfig.encode { c with durable_name := none }).objFields = some Json.null ∧
    List.lookup "deliver_subject"
      (ConsumerConfig.encode { c with deliver_subject := none }).objFields = some Json.null ∧
    List.lookup "opt_start_seq"
      (ConsumerConfig.encode { c with opt_start_seq := none }).objFields = some Json.null ∧
    List.lookup "opt_start_time"
      (ConsumerConfig.encode { c with opt_start_time := none }).objFields = some Json.null ∧
    List.lookup "ack_wait"
      (ConsumerConfig.encode { c with ack_wait := none }).objFields = some Json.null ∧
    List.lookup "max_deliver"
      (ConsumerConfig.encode { c with max_deliver := none }).objFields = some Json.null ∧
    List.lookup "filter_subject"
      (ConsumerConfig.encode { c with filter_subject := none }).objFields = some Json.null ∧
    List.lookup "rate_limit"
      (ConsumerConfig.encode { c with rate_limit := none }).objFields = some Json.null ∧
    List.lookup "sample_frequency"
      (ConsumerConfig.encode { c with sample_frequency := none }).objFields = some Json.null ∧
    List.lookup "max_waiting"
      (ConsumerConfig.encode { c with max_waiting := none }).objFields = some Json.null ∧
    List.lookup "max_ack_pending"
      (ConsumerConfig.encode { c with max_ack_pending := none }).objFields = some Json.null ∧
    List.lookup "subjects"
      (StreamConfig.encode { s with subjects := none }).objFields = some Json.null ∧
    List.lookup "max_msg_size"
      (StreamConfig.encode { s with max_msg_size := none }).objFields = some Json.null ∧
    List.lookup "no_ack"
      (StreamConfig.encode { s with no_ack := none }).objFields = some Json.null ∧
    List.lookup "template_owner"
      (StreamConfig.encode { s with template_owner := none }).objFields = some Json.null ∧
    List.lookup "duplicate_window"
      (StreamConfig.encode { s with duplicate_window := none }).objFields = some Json.null ∧
    List.lookup "duplicate"
      (PubAck.encode { p with duplicate := none }).objFields = some Json.null ∧
    List.lookup "batch"
      (NextRequest.encode { n with batch := none }).objFields = some Json.null ∧
    List.lookup "no_wait"
      (NextRequest.encode { n with no_wait := none }).objFields = some Json.null ∧
    List.lookup "subject"
      (StreamRequest.encode { r with subject := none }).objFields = some Json.null ∧
    ConsumerConfig.decode (ConsumerConfig.encode { c with durable_name := none }) =
      .ok { c with durable_name := none } ∧
    StreamConfig.decode (StreamConfig.encode { s with subjects := none }) =
      .ok { s with subjects := none } ∧
    PubAck.decode (PubAck.encode { p with duplicate := none }) =
      .ok { p with duplicate := none } ∧
    NextRequest.decode (NextRequest.encode { n with batch := none, no_wait := none }) =
      .ok { n with batch := none, no_wait := none } ∧
    StreamRequest.decode (StreamRequest.encode { r with subject := none }) =
      .ok { r with subject := none } :=
  ⟨rfl, rfl, rfl, rfl, rfl, rfl, rfl, rfl, rfl, rfl, rfl, rfl, rfl, rfl, rfl, rfl,
   rfl, rfl, rfl, rfl,
   consumerConfig_decode_encode _, streamConfig_decode_encode _,
   pubAck_decode_encode _, nextRequest_decode_encode _, streamRequest_decode_encode _⟩

/-- C4 counterexample: decoding the scenario document with only `retention`
and `name` present does not succeed — `StreamConfig` derives `Deserialize`
without `serde(default)`, so the absent required field `max_consumers`
aborts the decode with a missing-field error. -/
theorem workqueue_scenario_fails :
    StreamConfig.decode
      (Json.obj [("retention", Json.str "workqueue"), ("name", Json.str "jobs")]) =
    .error (.missingField "max_consumers") := rfl

/-- C4 amended: once every required (non-`Option`) field of `StreamConfig` is
present on the wire, the scenario holds: a document with
`retention = "workqueue"`, `name = "jobs"` and the remaining required fields
at their default wire values decodes to a config with retention `workqueue`,
name `"jobs"`, storage `file`, discard `old`, and every other field at its
default. -/
theorem workqueue_scenario_amended :
    StreamConfig.decode
      (Json.obj [("retention", Json.str "workqueue"), ("name", Json.str "jobs"),
        ("max_consumers", Json.num 0), ("max_msgs", Json.num 0),
        ("max_bytes", Json.num 0), ("discard", Json.str "old"),
        ("max_age", Json.num 0), ("storage", Json.str "file"),
        ("num_replicas", Json.num 0)]) =
    .ok { StreamConfig.default with
          name := "jobs"
          retention := RetentionPolicy.WorkQueuePolicy } := rfl

/-- C5: the default `ConsumerConfig` has `ack_policy = AckExplicit`,
`deliver_policy = DeliverAllPolicy`, `replay_policy = ReplayInstant` and every
`Option`-typed field unset; the default `StreamConfig` has
`retention = LimitsPolicy`, `discard = DiscardOld`, `storage = FileStorage`
and every `Option`-typed field unset. -/
theorem default_instantiation :
    ConsumerConfig.default.ack_policy = AckPolicy.AckExplicit ∧
    ConsumerConfig.default.deliver_policy = DeliverPolicy.DeliverAllPolicy ∧
    ConsumerConfig.default.replay_policy = ReplayPolicy.ReplayInstant ∧
    ConsumerConfig.default.durable_name = none ∧
    ConsumerConfig.default.deliver_subject = none ∧
    ConsumerConfig.default.opt_start_seq = none ∧
    ConsumerConfig.default.opt_start_time = none ∧
    ConsumerConfig.default.ack_wait = none ∧
    ConsumerConfig.default.max_deliver = none ∧
    ConsumerConfig.default.filter_subject = none ∧
    ConsumerConfig.default.rate_limit = none ∧
    ConsumerConfig.default.sample_frequency = none ∧
    ConsumerConfig.default.max_waiting = none ∧
    ConsumerConfig.default.max_ack_pending = none ∧
    StreamConfig.default.retention = RetentionPolicy.LimitsPolicy ∧
    StreamConfig.default.discard = DiscardPolicy.DiscardOld ∧
    StreamConfig.default.storage = StorageType.FileStorage ∧
    StreamConfig.default.subjects = none ∧
    StreamConfig.default.max_msg_size = none ∧
    StreamConfig.default.no_ack = none ∧
    StreamConfig.default.template_owner = none ∧
    StreamConfig.default.duplicate_window = none :=
  ⟨rfl, rfl, rfl, rfl, rfl, rfl, rfl, rfl, rfl, rfl, rfl, rfl, rfl, rfl, rfl,
   rfl, rfl, rfl, rfl, rfl, rfl, rfl⟩

/-- C6: the name-shorthand constructors set exactly the identifying field —
`StreamConfig.fromName s` has `name = s` and every other field at its default,
and `ConsumerConfig.fromName s` has `durable_name = some s` and every other
field at its default. -/
theorem name_shorthand_constructors (s : String) :
    (ConsumerConfig.fromName s).durable_name = some s ∧
    (ConsumerConfig.fromName s).deliver_subject = ConsumerConfig.default.deliver_subject ∧
    (ConsumerConfig.fromName s).deliver_policy = ConsumerConfig.default.deliver_policy ∧
    (ConsumerConfig.fromName s).opt_start_seq = ConsumerConfig.default.opt_start_seq ∧
    (ConsumerConfig.fromName s).opt_start_time = ConsumerConfig.default.opt_start_time ∧
    (ConsumerConfig.fromName s).ack_policy = ConsumerConfig.default.ack_policy ∧
    (ConsumerConfig.fromName s).ack_wait = ConsumerConfig.default.ack_wait ∧
    (ConsumerConfig.fromName s).max_deliver = ConsumerConfig.default.max_deliver ∧
    (ConsumerConfig.fromName s).filter_subject = ConsumerConfig.default.filter_subject ∧
    (ConsumerConfig.fromName s).replay_policy = ConsumerConfig.default.replay_policy ∧
    (ConsumerConfig.fromName s).rate_limit = ConsumerConfig.default.rate_limit ∧
    (ConsumerConfig.fromName s).sample_frequency = ConsumerConfig.default.sample_frequency ∧
    (ConsumerConfig.fromName s).max_waiting = ConsumerConfig.default.max_waiting ∧
    (ConsumerConfig.fromName s).max_ack_pending = ConsumerConfig.default.max_ack_pending ∧
    (StreamConfig.fromName s).name = s ∧
    (StreamConfig.fromName s).subjects = StreamConfig.default.subjects ∧
    (StreamConfig.fromName s).retention = StreamConfig.default.retention ∧
    (StreamConfig.fromName s).max_consumers = StreamConfig.default.max_consumers ∧
    (StreamConfig.fromName s).max_msgs = StreamConfig.default.max_msgs ∧
    (StreamConfig.fromName s).max_bytes = StreamConfig.default.max_bytes ∧
    (StreamConfig.fromName s).discard = StreamConfig.default.discard ∧
    (StreamConfig.fromName s).max_age = StreamConfig.default.max_age ∧
    (StreamConfig.fromName s).max_msg_size = StreamConfig.default.max_msg_size ∧
    (StreamConfig.fromName s).storage = StreamConfig.default.storage ∧
    (StreamConfig.fromName s).num_replicas = StreamConfig.default.num_replicas ∧
    (StreamConfig.fromName s).no_ack = StreamConfig.default.no_ack ∧
    (StreamConfig.fromName s).template_owner = StreamConfig.default.template_owner ∧
    (StreamConfig.fromName s).duplicate_window = StreamConfig.default.duplicate_window :=
  ⟨rfl, rfl, rfl, rfl, rfl, rfl, rfl, rfl, rfl, rfl, rfl, rfl, rfl, rfl, rfl,
   rfl, rfl, rfl, rfl, rfl, rfl, rfl, rfl, rfl, rfl, rfl, rfl, rfl⟩

/-- C8: the default of the `DateTime` wrapper is the Unix epoch instant
1970-01-01T00:00:00Z (zero nanoseconds since the epoch) — a real instant that
encodes to a timestamp string, not an unset/null sentinel. -/
theorem datetime_default_is_epoch :
    DateTime.default = DateTime.epoch ∧
    DateTime.default.nanos = 0 ∧
    DateTime.default.toWire = "0" ∧
    (DateTime.encode DateTime.default).isNull = false :=
  ⟨rfl, rfl, by decide, rfl⟩

/-- C9: `AckPolicy` has the fourth variant `AckPolicyNotSet` with `repr(u8)`
discriminant 99, distinct from the three documented variants; lacking a
`serde(rename)` attribute it encodes to the tag string `"AckPolicyNotSet"`
(not a lowercase-snake tag), and that tag decodes back to the variant rather
than failing as an unknown variant. -/
theorem ackpolicy_notset_variant :
    AckPolicy.discriminant AckPolicy.AckPolicyNotSet = 99 ∧
    AckPolicy.encode AckPolicy.AckPolicyNotSet = Json.str "AckPolicyNotSet" ∧
    AckPolicy.decode (Json.str "AckPolicyNotSet") = .ok AckPolicy.AckPolicyNotSet ∧
    AckPolicy.AckPolicyNotSet ≠ AckPolicy.AckNone ∧
    AckPolicy.AckPolicyNotSet ≠ AckPolicy.AckAll ∧
    AckPolicy.AckPolicyNotSet ≠ AckPolicy.AckExplicit :=
  ⟨rfl, rfl, rfl, by decide, by decide, by decide⟩

/-- A lookup on a key that appears nowhere in the association list is `none`. -/
theorem lookup_none_of_not_mem_keys {β : Type} (l : List (String × β)) (k : String)
    (h : k ∉ l.map Prod.fst) : List.lookup k l = none := by
  induction l with
  | nil => rfl
  | cons p t ih =>
      obtain ⟨pk, pv⟩ := p
      simp only [List.map_cons, List.mem_cons, not_or] at h
      rw [lookup_cons_ne _ _ _ _ h.1]
      exact ih h.2

/-- C2 counterexample: the tag string `"AckPolicyNotSet"` lies outside the
documented tag set of `AckPolicy` (`none` / `all` / `explicit`), yet decoding
it succeeds instead of failing with an unknown-variant error. -/
theorem undocumented_tag_decode_cex :
    "AckPolicyNotSet" ∉ (["none", "all", "explicit"] : List String) ∧
    AckPolicy.decode (Json.str "AckPolicyNotSet") = .ok AckPolicy.AckPolicyNotSet :=
  ⟨by decide, rfl⟩

/-- C2 amended: for every policy enumeration, every documented wire tag
decodes to its variant and every variant encodes to its documented lowercase
tag — except that `AckPolicy` additionally accepts and emits the tag
`"AckPolicyNotSet"` for its undocumented fourth variant; decoding any tag
outside the enumeration's accepted set (the documented tags, plus
`"AckPolicyNotSet"` for `AckPolicy`) fails with an unknown-variant error
naming the enumeration and the tag; in particular decoding
`\x7b"ack_policy":"bogus"\x7d` into `ConsumerConfig` fails with
`UnknownVariant("AckPolicy", "bogus")`. -/
theorem enum_codec_totality :
    (∀ s : String, s ≠ "all" → s ≠ "last" → s ≠ "new" → s ≠ "by_start_sequence" →
       s ≠ "by_start_time" →
       DeliverPolicy.decode (Json.str s) = .error (.unknownVariant "DeliverPolicy" s)) ∧
    (∀ s : String, s ≠ "none" → s ≠ "all" → s ≠ "explicit" → s ≠ "AckPolicyNotSet" →
       AckPolicy.decode (Json.str s) = .error (.unknownVariant "AckPolicy" s)) ∧
    (∀ s : String, s ≠ "instant" → s ≠ "original" →
       ReplayPolicy.decode (Json.str s) = .error (.unknownVariant "ReplayPolicy" s)) ∧
    (∀ s : String, s ≠ "limits" → s ≠ "interest" → s ≠ "workqueue" →
       RetentionPolicy.decode (Json.str s) = .error (.unknownVariant "RetentionPolicy" s)) ∧
    (∀ s : String, s ≠ "old" → s ≠ "new" →
       DiscardPolicy.decode (Json.str s) = .error (.unknownVariant "DiscardPolicy" s)) ∧
    (∀ s : String, s ≠ "file" → s ≠ "memory" →
       StorageType.decode (Json.str s) = .error (.unknownVariant "StorageType" s)) ∧
    ConsumerConfig.decode (Json.obj [("ack_policy", Json.str "bogus")]) =
      .error (.unknownVariant "AckPolicy" "bogus") ∧
    DeliverPolicy.decode (Json.str "all") = .ok DeliverPolicy.DeliverAllPolicy ∧
    DeliverPolicy.decode (Json.str "last") = .ok DeliverPolicy.DeliverLastPolicy ∧
    DeliverPolicy.decode (Json.str "new") = .ok DeliverPolicy.DeliverNewPolicy ∧
    DeliverPolicy.decode (Json.str "by_start_sequence") =
      .ok DeliverPolicy.DeliverByStartSequencePolicy ∧
    DeliverPolicy.decode (Json.str "by_start_time") =
      .ok DeliverPolicy.DeliverByStartTimePolicy ∧
    DeliverPolicy.encode DeliverPolicy.DeliverAllPolicy = Json.str "all" ∧
    DeliverPolicy.encode DeliverPolicy.DeliverLastPolicy = Json.str "last" ∧
    DeliverPolicy.encode DeliverPolicy.DeliverNewPolicy = Json.str "new" ∧
    DeliverPolicy.encode DeliverPolicy.DeliverByStartSequencePolicy =
      Json.str "by_start_sequence" ∧
    DeliverPolicy.encode DeliverPolicy.DeliverByStartTimePolicy =
      Json.str "by_start_time" ∧
    AckPolicy.decode (Json.str "none") = .ok AckPolicy.AckNone ∧
    AckPolicy.decode (Json.str "all") = .ok AckPolicy.AckAll ∧
    AckPolicy.decode (Json.str "explicit") = .ok AckPolicy.AckExplicit ∧
    AckPolicy.encode AckPolicy.AckNone = Json.str "none" ∧
    AckPolicy.encode AckPolicy.AckAll = Json.str "all" ∧
    AckPolicy.encode AckPolicy.AckExplicit = Json.str "explicit" ∧
    ReplayPolicy.decode (Json.str "instant") = .ok ReplayPolicy.ReplayInstant ∧
    ReplayPolicy.decode (Json.str "original") = .ok ReplayPolicy.ReplayOriginal ∧
    ReplayPolicy.encode ReplayPolicy.ReplayInstant = Json.str "instant" ∧
    ReplayPolicy.encode ReplayPolicy.ReplayOriginal = Json.str "original" ∧
    RetentionPolicy.decode (Json.str "limits") = .ok RetentionPolicy.LimitsPolicy ∧
    RetentionPolicy.decode (Json.str "interest") = .ok RetentionPolicy.InterestPolicy ∧
    RetentionPolicy.decode (Json.str "workqueue") = .ok RetentionPolicy.WorkQueuePolicy ∧
    RetentionPolicy.encode RetentionPolicy.LimitsPolicy = Json.str "limits" ∧
    RetentionPolicy.encode RetentionPolicy.InterestPolicy = Json.str "interest" ∧
    RetentionPolicy.encode RetentionPolicy.WorkQueuePolicy = Json.str "workqueue" ∧
    DiscardPolicy.decode (Json.str "old") = .ok DiscardPolicy.DiscardOld ∧
    DiscardPolicy.decode (Json.str "new") = .ok DiscardPolicy.DiscardNew ∧
    DiscardPolicy.encode DiscardPolicy.DiscardOld = Json.str "old" ∧
    DiscardPolicy.encode DiscardPolicy.DiscardNew = Json.str "new" ∧
    StorageType.decode (Json.str "file") = .ok StorageType.FileStorage ∧
    StorageType.decode (Json.str "memory") = .ok StorageType.MemoryStorage ∧
    StorageType.encode StorageType.FileStorage = Json.str "file" ∧
    StorageType.encode StorageType.MemoryStorage = Json.str "memory" := by
  refine ⟨?_, ?_, ?_, ?_, ?_, ?_, rfl, rfl, rfl, rfl, rfl, rfl, rfl, rfl, rfl, rfl,
    rfl, rfl, rfl, rfl, rfl, rfl, rfl, rfl, rfl, rfl, rfl, rfl, rfl, rfl, rfl, rfl,
    rfl, rfl, rfl, rfl, rfl, rfl, rfl, rfl, rfl⟩
  · intro t h1 h2 h3 h4 h5
    simp [DeliverPolicy.decode, h1, h2, h3, h4, h5]
  · intro t h1 h2 h3 h4
    simp [AckPolicy.decode, h1, h2, h3, h4]
  · intro t h1 h2
    simp [ReplayPolicy.decode, h1, h2]
  · intro t h1 h2 h3
    simp [RetentionPolicy.decode, h1, h2, h3]
  · intro t h1 h2
    simp [DiscardPolicy.decode, h1, h2]
  · intro t h1 h2
    simp [StorageType.decode, h1, h2]

/-- Witness for the amended C2: each unknown-tag clause applied at the
concrete tag `"bogus"`. -/
theorem enum_codec_totality_witness :
    DeliverPolicy.decode (Json.str "bogus") =
      .error (.unknownVariant "DeliverPolicy" "bogus") ∧
    AckPolicy.decode (Json.str "bogus") = .error (.unknownVariant "AckPolicy" "bogus") ∧
    ReplayPolicy.decode (Json.str "bogus") =
      .error (.unknownVariant "ReplayPolicy" "bogus") ∧
    RetentionPolicy.decode (Json.str "bogus") =
      .error (.unknownVariant "RetentionPolicy" "bogus") ∧
    DiscardPolicy.decode (Json.str "bogus") =
      .error (.unknownVariant "DiscardPolicy" "bogus") ∧
    StorageType.decode (Json.str "bogus") =
      .error (.unknownVariant "StorageType" "bogus") :=
  ⟨enum_codec_totality.1 "bogus" (by decide) (by decide) (by decide) (by decide)
     (by decide),
   enum_codec_totality.2.1 "bogus" (by decide) (by decide) (by decide) (by decide),
   enum_codec_totality.2.2.1 "bogus" (by decide) (by decide),
   enum_codec_totality.2.2.2.1 "bogus" (by decide) (by decide) (by decide),
   enum_codec_totality.2.2.2.2.1 "bogus" (by decide) (by decide),
   enum_codec_totality.2.2.2.2.2.1 "bogus" (by decide) (by decide)⟩

/-- The recognized field keys of `ConsumerInfo`. -/
def ConsumerInfo.fieldKeys : List String :=
  ["type", "stream_name", "name", "created", "config", "delivered", "ack_floor",
   "num_ack_pending", "num_redelivered", "num_waiting", "num_pending", "cluster"]

/-- The recognized field keys of `AccountInfo`. -/
def AccountInfo.fieldKeys : List String :=
  ["type", "memory", "storage", "streams", "consumers", "api", "limits"]

/-- The recognized field keys of `ApiStats`. -/
def ApiStats.fieldKeys : List String := ["total", "errors"]

/-- The recognized field keys of `AccountLimits`. -/
def AccountLimits.fieldKeys : List String :=
  ["max_memory", "max_storage", "max_streams", "max_consumers"]

/-- The recognized field keys of `SequencePair`. -/
def SequencePair.fieldKeys : List String := ["consumer_seq", "stream_seq"]

/-- The recognized field keys of `ClusterInfo`. -/
def ClusterInfo.fieldKeys : List String := ["leader"]

/-- C7: decoding a Configuration or Status document that carries an extra
entry under a key the record does not recognize ignores that entry — the
result is the same as decoding the document without it; stated for both
Configuration records and for every Status record and sub-record. -/
theorem unknown_fields_ignored (l1 l2 : List (String × Json)) (k : String) (v : Json) :
    (k ∉ ConsumerConfig.fieldKeys →
       ConsumerConfig.decode (Json.obj (l1 ++ (k, v) :: l2)) =
       ConsumerConfig.decode (Json.obj (l1 ++ l2))) ∧
    (k ∉ StreamConfig.fieldKeys →
       StreamConfig.decode (Json.obj (l1 ++ (k, v) :: l2)) =
       StreamConfig.decode (Json.obj (l1 ++ l2))) ∧
    (k ∉ StreamInfo.fieldKeys →
       StreamInfo.decode (Json.obj (l1 ++ (k, v) :: l2)) =
       StreamInfo.decode (Json.obj (l1 ++ l2))) ∧
    (k ∉ StreamState.fieldKeys →
       StreamState.decode (Json.obj (l1 ++ (k, v) :: l2)) =
       StreamState.decode (Json.obj (l1 ++ l2))) ∧
    (k ∉ ConsumerInfo.fieldKeys →
       ConsumerInfo.decode (Json.obj (l1 ++ (k, v) :: l2)) =
       ConsumerInfo.decode (Json.obj (l1 ++ l2))) ∧
    (k ∉ AccountInfo.fieldKeys →
       AccountInfo.decode (Json.obj (l1 ++ (k, v) :: l2)) =
       AccountInfo.decode (Json.obj (l1 ++ l2))) ∧
    (k ∉ ApiStats.fieldKeys →
       ApiStats.decode (Json.obj (l1 ++ (k, v) :: l2)) =
       ApiStats.decode (Json.obj (l1 ++ l2))) ∧
    (k ∉ AccountLimits.fieldKeys →
       AccountLimits.decode (Json.obj (l1 ++ (k, v) :: l2)) =
       AccountLimits.decode (Json.obj (l1 ++ l2))) ∧
    (k ∉ SequencePair.fieldKeys →
       SequencePair.decode (Json.obj (l1 ++ (k, v) :: l2)) =
       SequencePair.decode (Json.obj (l1 ++ l2))) ∧
    (k ∉ ClusterInfo.fieldKeys →
       ClusterInfo.decode (Json.obj (l1 ++ (k, v) :: l2)) =
       ClusterInfo.decode (Json.obj (l1 ++ l2))) := by
  refine ⟨?_, ?_, ?_, ?_, ?_, ?_, ?_, ?_, ?_, ?_⟩
  · intro hk
    simp only [ConsumerConfig.fieldKeys, List.mem_cons, List.not_mem_nil, or_false,
      not_or] at hk
    have hs : List.lookup k ConsumerConfig.fieldChecks = none := by
      apply lookup_none_of_not_mem_keys
      simp only [ConsumerConfig.fieldChecks, List.map_cons, List.map_nil, List.mem_cons,
        List.not_mem_nil, or_false, not_or]
      exact hk
    simp [ConsumerConfig.decode,
      checkEntries_middle ConsumerConfig.fieldChecks l1 l2 k v hs,
      optField_middle, reqField_middle, hk]
  · intro hk
    simp only [StreamConfig.fieldKeys, List.mem_cons, List.not_mem_nil, or_false,
      not_or] at hk
    have hs : List.lookup k StreamConfig.fieldChecks = none := by
      apply lookup_none_of_not_mem_keys
      simp only [StreamConfig.fieldChecks, List.map_cons, List.map_nil, List.mem_cons,
        List.not_mem_nil, or_false, not_or]
      exact hk
    simp [StreamConfig.decode,
      checkEntries_middle StreamConfig.fieldChecks l1 l2 k v hs,
      optField_middle, reqField_middle, hk]
  · intro hk
    simp only [StreamInfo.fieldKeys, List.mem_cons, List.not_mem_nil, or_false,
      not_or] at hk
    have hs : List.lookup k StreamInfo.fieldChecks = none := by
      apply lookup_none_of_not_mem_keys
      simp only [StreamInfo.fieldChecks, List.map_cons, List.map_nil, List.mem_cons,
        List.not_mem_nil, or_false, not_or]
      exact hk
    simp [StreamInfo.decode,
      checkEntries_middle StreamInfo.fieldChecks l1 l2 k v hs,
      reqField_middle, hk]
  · intro hk
    simp only [StreamState.fieldKeys, List.mem_cons, List.not_mem_nil, or_false,
      not_or] at hk
    have hs : List.lookup k StreamState.fieldChecks = none := by
      apply lookup_none_of_not_mem_keys
      simp only [StreamState.fieldChecks, List.map_cons, List.map_nil, List.mem_cons,
        List.not_mem_nil, or_false, not_or]
      exact hk
    simp [StreamState.decode,
      checkEntries_middle StreamState.fieldChecks l1 l2 k v hs,
      reqField_middle, defField_middle, hk]
  · intro hk
    simp only [ConsumerInfo.fieldKeys, List.mem_cons, List.not_mem_nil, or_false,
      not_or] at hk
    have hs : List.lookup k ConsumerInfo.fieldChecks = none := by
      apply lookup_none_of_not_mem_keys
      simp only [ConsumerInfo.fieldChecks, List.map_cons, List.map_nil, List.mem_cons,
        List.not_mem_nil, or_false, not_or]
      exact hk
    simp [ConsumerInfo.decode,
      checkEntries_middle ConsumerInfo.fieldChecks l1 l2 k v hs,
      reqField_middle, hk]
  · intro hk
    simp only [AccountInfo.fieldKeys, List.mem_cons, List.not_mem_nil, or_false,
      not_or] at hk
    have hs : List.lookup k AccountInfo.fieldChecks = none := by
      apply lookup_none_of_not_mem_keys
      simp only [AccountInfo.fieldChecks, List.map_cons, List.map_nil, List.mem_cons,
        List.not_mem_nil, or_false, not_or]
      exact hk
    simp [AccountInfo.decode,
      checkEntries_middle AccountInfo.fieldChecks l1 l2 k v hs,
      reqField_middle, hk]
  · intro hk
    simp only [ApiStats.fieldKeys, List.mem_cons, List.not_mem_nil, or_false,
      not_or] at hk
    have hs : List.lookup k ApiStats.fieldChecks = none := by
      apply lookup_none_of_not_mem_keys
      simp only [ApiStats.fieldChecks, List.map_cons, List.map_nil, List.mem_cons,
        List.not_mem_nil, or_false, not_or]
      exact hk
    simp [ApiStats.decode,
      checkEntries_middle ApiStats.fieldChecks l1 l2 k v hs,
      reqField_middle, hk]
  · intro hk
    simp only [AccountLimits.fieldKeys, List.mem_cons, List.not_mem_nil, or_false,
      not_or] at hk
    have hs : List.lookup k AccountLimits.fieldChecks = none := by
      apply lookup_none_of_not_mem_keys
      simp only [AccountLimits.fieldChecks, List.map_cons, List.map_nil, List.mem_cons,
        List.not_mem_nil, or_false, not_or]
      exact hk
    simp [AccountLimits.decode,
      checkEntries_middle AccountLimits.fieldChecks l1 l2 k v hs,
      reqField_middle, hk]
  · intro hk
    simp only [SequencePair.fieldKeys, List.mem_cons, List.not_mem_nil, or_false,
      not_or] at hk
    have hs : List.lookup k SequencePair.fieldChecks = none := by
      apply lookup_none_of_not_mem_keys
      simp only [SequencePair.fieldChecks, List.map_cons, List.map_nil, List.mem_cons,
        List.not_mem_nil, or_false, not_or]
      exact hk
    simp [SequencePair.decode,
      checkEntries_middle SequencePair.fieldChecks l1 l2 k v hs,
      reqField_middle, hk]
  · intro hk
    simp only [ClusterInfo.fieldKeys, List.mem_cons, List.not_mem_nil, or_false,
      not_or] at hk
    have hs : List.lookup k ClusterInfo.fieldChecks = none := by
      apply lookup_none_of_not_mem_keys
      simp only [ClusterInfo.fieldChecks, List.map_cons, List.map_nil, List.mem_cons,
        List.not_mem_nil, or_false, not_or]
      exact hk
    simp [ClusterInfo.decode,
      checkEntries_middle ClusterInfo.fieldChecks l1 l2 k v hs,
      reqField_middle, hk]

/-- Witness for C7: the ten clauses applied with the concrete unknown key
`"x_extra"` inserted into an otherwise empty document. -/
theorem unknown_fields_ignored_witness :
    ConsumerConfig.decode (Json.obj [("x_extra", Json.bool true)]) =
      ConsumerConfig.decode (Json.obj []) ∧
    StreamConfig.decode (Json.obj [("x_extra", Json.bool true)]) =
      StreamConfig.decode (Json.obj []) ∧
    StreamInfo.decode (Json.obj [("x_extra", Json.bool true)]) =
      StreamInfo.decode (Json.obj []) ∧
    StreamState.decode (Json.obj [("x_extra", Json.bool true)]) =
      StreamState.decode (Json.obj []) ∧
    ConsumerInfo.decode (Json.obj [("x_extra", Json.bool true)]) =
      ConsumerInfo.decode (Json.obj []) ∧
    AccountInfo.decode (Json.obj [("x_extra", Json.bool true)]) =
      AccountInfo.decode (Json.obj []) ∧
    ApiStats.decode (Json.obj [("x_extra", Json.bool true)]) =
      ApiStats.decode (Json.obj []) ∧
    AccountLimits.decode (Json.obj [("x_extra", Json.bool true)]) =
      AccountLimits.decode (Json.obj []) ∧
    SequencePair.decode (Json.obj [("x_extra", Json.bool true)]) =
      SequencePair.decode (Json.obj []) ∧
    ClusterInfo.decode (Json.obj [("x_extra", Json.bool true)]) =
      ClusterInfo.decode (Json.obj []) :=
  ⟨(unknown_fields_ignored [] [] "x_extra" (Json.bool true)).1 (by decide),
   (unknown_fields_ignored [] [] "x_extra" (Json.bool true)).2.1 (by decide),
   (unknown_fields_ignored [] [] "x_extra" (Json.bool true)).2.2.1 (by decide),
   (unknown_fields_ignored [] [] "x_extra" (Json.bool true)).2.2.2.1 (by decide),
   (unknown_fields_ignored [] [] "x_extra" (Json.bool true)).2.2.2.2.1 (by decide),
   (unknown_fields_ignored [] [] "x_extra" (Json.bool true)).2.2.2.2.2.1 (by decide),
   (unknown_fields_ignored [] [] "x_extra" (Json.bool true)).2.2.2.2.2.2.1 (by decide),
   (unknown_fields_ignored [] [] "x_extra" (Json.bool true)).2.2.2.2.2.2.2.1 (by decide),
   (unknown_fields_ignored [] [] "x_extra" (Json.bool true)).2.2.2.2.2.2.2.2.1 (by decide),
   (unknown_fields_ignored [] [] "x_extra" (Json.bool true)).2.2.2.2.2.2.2.2.2 (by decide)⟩

/-- C10: a document decodes into `StreamConfig` only if each of the nine
non-`Option` fields is present; dropping any one of them from an otherwise
complete document fails with precisely that missing-field error, while a
document carrying none of the `Option`-typed keys still decodes, the options
all unset. -/
theorem streamconfig_required_fields :
    (∀ (o : List (String × Json)) (c : StreamConfig),
       StreamConfig.decode (Json.obj o) = .ok c →
       (List.lookup "name" o).isSome = true ∧
       (List.lookup "retention" o).isSome = true ∧
       (List.lookup "max_consumers" o).isSome = true ∧
       (List.lookup "max_msgs" o).isSome = true ∧
       (List.lookup "max_bytes" o).isSome = true ∧
       (List.lookup "discard" o).isSome = true ∧
       (List.lookup "max_age" o).isSome = true ∧
       (List.lookup "storage" o).isSome = true ∧
       (List.lookup "num_replicas" o).isSome = true) ∧
    StreamConfig.decode (Json.obj (dropKey "name" streamDocFull)) =
      .error (.missingField "name") ∧
    StreamConfig.decode (Json.obj (dropKey "retention" streamDocFull)) =
      .error (.missingField "retention") ∧
    StreamConfig.decode (Json.obj (dropKey "max_consumers" streamDocFull)) =
      .error (.missingField "max_consumers") ∧
    StreamConfig.decode (Json.obj (dropKey "max_msgs" streamDocFull)) =
      .error (.missingField "max_msgs") ∧
    StreamConfig.decode (Json.obj (dropKey "max_bytes" streamDocFull)) =
      .error (.missingField "max_bytes") ∧
    StreamConfig.decode (Json.obj (dropKey "discard" streamDocFull)) =
      .error (.missingField "discard") ∧
    StreamConfig.decode (Json.obj (dropKey "max_age" streamDocFull)) =
      .error (.missingField "max_age") ∧
    StreamConfig.decode (Json.obj (dropKey "storage" streamDocFull)) =
      .error (.missingField "storage") ∧
    StreamConfig.decode (Json.obj (dropKey "num_replicas" streamDocFull)) =
      .error (.missingField "num_replicas") ∧
    StreamConfig.decode (Json.obj streamDocFull) =
      .ok { StreamConfig.default with name := "s" } := by
  refine ⟨?_, rfl, rfl, rfl, rfl, rfl, rfl, rfl, rfl, rfl, rfl⟩
  intro o c h
  simp only [StreamConfig.decode] at h
  obtain ⟨u0, hu0, h⟩ := except_bind_ok h
  obtain ⟨u1, hu1, h⟩ := except_bind_ok h
  obtain ⟨nm, hname, h⟩ := except_bind_ok h
  obtain ⟨rt, hret, h⟩ := except_bind_ok h
  obtain ⟨mc, hmc, h⟩ := except_bind_ok h
  obtain ⟨mm, hmm, h⟩ := except_bind_ok h
  obtain ⟨mb, hmb, h⟩ := except_bind_ok h
  obtain ⟨di, hdis, h⟩ := except_bind_ok h
  obtain ⟨ma, hma, h⟩ := except_bind_ok h
  obtain ⟨ms, hms, h⟩ := except_bind_ok h
  obtain ⟨st, hsto, h⟩ := except_bind_ok h
  obtain ⟨nr, hnr, h⟩ := except_bind_ok h
  exact ⟨reqField_ok_isSome hname, reqField_ok_isSome hret, reqField_ok_isSome hmc,
    reqField_ok_isSome hmm, reqField_ok_isSome hmb, reqField_ok_isSome hdis,
    reqField_ok_isSome hma, reqField_ok_isSome hsto, reqField_ok_isSome hnr⟩

/-- Witness for C10: the required-presence clause applied to the concrete
full document. -/
theorem streamconfig_required_fields_witness :
    (List.lookup "name" streamDocFull).isSome = true ∧
    (List.lookup "retention" streamDocFull).isSome = true ∧
    (List.lookup "max_consumers" streamDocFull).isSome = true ∧
    (List.lookup "max_msgs" streamDocFull).isSome = true ∧
    (List.lookup "max_bytes" streamDocFull).isSome = true ∧
    (List.lookup "discard" streamDocFull).isSome = true ∧
    (List.lookup "max_age" streamDocFull).isSome = true ∧
    (List.lookup "storage" streamDocFull).isSome = true ∧
    (List.lookup "num_replicas" streamDocFull).isSome = true :=
  streamconfig_required_fields.1 streamDocFull
    { StreamConfig.default with name := "s" } rfl

end Nats
